import Mathlib

/-! kaelly-portals: the portal mapper (`models/mappers/portals.go`)

A shallow embedding of `MapPortal` and its helpers.

Conventions of the embedding:

* a Go pointer `*T` is an `Option T` (`nil` is `none`);
* a Go `int` is an `Int`; the conversion `int32(v)` is `int32 v`, the wrap of
  `v` into the signed 32-bit range (two's complement truncation);
* `log.Warn()....Msgf(...)` appends one `LogEvent` to the list of events the
  function hands to the logger; every function that may log returns its value
  paired with the events it submitted, in program order (Go evaluates the calls
  of a composite literal left to right); whether the logger writes an event out
  is decided by its configured level, outside the mapper;
* a catalog service is the lookup method of its interface, a total function
  from the external identifier to the pair `(entity, found)`.
-/

namespace KaellyPortals

/-! ## Machine integers -/

/-- The Go conversion `int32(v)`: keep the low 32 bits, read as two's complement. -/
def int32 (v : Int) : Int :=
  (v + 2147483648) % 4294967296 - 2147483648

/-! ## Logging (`zerolog`) -/

/-- The levels of `zerolog` the mapper and its host use. -/
inductive LogLevel where
  | Debug
  | Info
  | Warn
  | Error
  deriving DecidableEq, Repr

/-- The field keys `constants.Log…ID` the mapper passes to `Str`. The constants
are kept symbolic: one key per catalog kind. -/
inductive LogKey where
  | LogServerID
  | LogDimensionID
  | LogAreaID
  | LogSubAreaID
  | LogTransportTypeID
  deriving DecidableEq, Repr

/-- One event submitted to the logger: `log.<level>().Str(key, value).Msgf(msg)`. -/
structure LogEvent where
  level : LogLevel
  key : LogKey
  value : String
  msg : String
  deriving DecidableEq, Repr

/-! ## Reference entities and catalog services -/

/-- Modelled from the spec: the server entity returned by the server catalog
(its declaration is not in the sources); `ID` is the internal id the mapper
reads, `DofusPortalsID` the external id it is looked up by. -/
structure entities.Server where
  ID : String
  DofusPortalsID : String
  deriving DecidableEq, Repr, Inhabited

/-- Modelled from the spec: the dimension entity returned by the dimension
catalog (its declaration is not in the sources). -/
structure entities.Dimension where
  ID : String
  DofusPortalsID : String
  deriving DecidableEq, Repr, Inhabited

/-- Modelled from the spec: the area entity returned by the area catalog (its
declaration is not in the sources). -/
structure entities.Area where
  ID : String
  DofusPortalsID : String
  deriving DecidableEq, Repr, Inhabited

/-- Modelled from the spec: the sub-area entity returned by the sub-area
catalog (its declaration is not in the sources). -/
structure entities.SubArea where
  ID : String
  DofusPortalsID : String
  deriving DecidableEq, Repr, Inhabited

/-- Modelled from the spec: the transport-type entity returned by the
transport-type catalog (its declaration is not in the sources). -/
structure entities.TransportType where
  ID : String
  DofusPortalsID : String
  deriving DecidableEq, Repr, Inhabited

/-- The interface `servers.Service`, as far as the mapper uses it. -/
structure servers.Service where
  FindServerByDofusPortalsID : String → entities.Server × Bool

/-- The interface `dimensions.Service`, as far as the mapper uses it. -/
structure dimensions.Service where
  FindDimensionByDofusPortalsID : String → entities.Dimension × Bool

/-- The interface `areas.Service`, as far as the mapper uses it. -/
structure areas.Service where
  FindAreaByDofusPortalsID : String → entities.Area × Bool

/-- The interface `subareas.Service`, as far as the mapper uses it. -/
structure subareas.Service where
  FindSubAreaByDofusPortalsID : String → entities.SubArea × Bool

/-- The interface `transports.Service`, as far as the mapper uses it. -/
structure transports.Service where
  FindTransportTypeByDofusPortalsID : String → entities.TransportType × Bool

/-! ## The external record (`payloads/dofusportals`) -/

/-- The named string type `dofusportals.TransportType`. -/
abbrev dofusportals.TransportType := String

/-- Modelled from the spec: `dofusportals.Transport`,
`{areaExternalId, subAreaExternalId: strings; type: string; x, y: int}`. The
Go field `Type` is written `Type_`, the bare word being reserved. -/
structure dofusportals.Transport where
  Area : String
  SubArea : String
  Type_ : dofusportals.TransportType
  X : Int
  Y : Int
  deriving DecidableEq, Repr

/-- Modelled from the spec: `dofusportals.Position`, `{x: int, y: int,
isInCanopy: optional bool, transport, conditionalTransport: optional Transport}`. -/
structure dofusportals.Position where
  X : Int
  Y : Int
  IsInCanopy : Option Bool
  Transport : Option dofusportals.Transport
  ConditionalTransport : Option dofusportals.Transport
  deriving DecidableEq, Repr

/-- Modelled from the spec: `dofusportals.User`, `{name: string}`. -/
structure dofusportals.User where
  Name : String
  deriving DecidableEq, Repr

/-- A `time.Time`, by what `timestamppb.New` reads of it: `Unix()`, the seconds
since the epoch, and `Nanosecond()`, which Go keeps in `[0, 999999999]`. -/
structure time.Time where
  Unix : Int
  Nanosecond : Fin 1000000000
  deriving DecidableEq, Repr

/-- Modelled from the spec: `dofusportals.Portal`, the external record. -/
structure dofusportals.Portal where
  Server : String
  Dimension : String
  Position : Option dofusportals.Position
  RemainingUses : Option Int
  CreatedBy : Option dofusportals.User
  UpdatedBy : Option dofusportals.User
  CreatedAt : Option time.Time
  UpdatedAt : Option time.Time
  deriving DecidableEq, Repr

/-! ## The canonical message (`kaelly-amqp`) -/

/-- The message `timestamppb.Timestamp`. -/
structure timestamppb.Timestamp where
  Seconds : Int
  Nanos : Int
  deriving DecidableEq, Repr

/-- The value type `models.Source`. -/
structure models.Source where
  Name : String
  Icon : String
  Url : String
  deriving DecidableEq, Repr

/-- The message `amqp.PortalPositionAnswer_PortalPosition_Source`. -/
structure amqp.PortalPositionAnswer_PortalPosition_Source where
  Name : String
  Icon : String
  Url : String
  deriving DecidableEq, Repr

/-- The message `amqp.PortalPositionAnswer_PortalPosition_Position_Transport`. -/
structure amqp.PortalPositionAnswer_PortalPosition_Position_Transport where
  AreaId : String
  SubAreaId : String
  TypeId : String
  X : Int
  Y : Int
  deriving DecidableEq, Repr

/-- The message `amqp.PortalPositionAnswer_PortalPosition_Position`. -/
structure amqp.PortalPositionAnswer_PortalPosition_Position where
  X : Int
  Y : Int
  IsInCanopy : Bool
  Transport : Option amqp.PortalPositionAnswer_PortalPosition_Position_Transport
  ConditionalTransport : Option amqp.PortalPositionAnswer_PortalPosition_Position_Transport
  deriving DecidableEq, Repr

/-- The message `amqp.PortalPositionAnswer_PortalPosition`. -/
structure amqp.PortalPositionAnswer_PortalPosition where
  ServerId : String
  DimensionId : String
  Position : Option amqp.PortalPositionAnswer_PortalPosition_Position
  RemainingUses : Int
  CreatedBy : String
  CreatedAt : Option timestamppb.Timestamp
  UpdatedBy : String
  UpdatedAt : Option timestamppb.Timestamp
  Source : Option amqp.PortalPositionAnswer_PortalPosition_Source
  deriving DecidableEq, Repr

/-! ## The identifier helpers -/

/-- The function `getInternalServerID` (portals.go, 102-111). -/
def getInternalServerID (dofusPortalsID : String) (serverService : servers.Service) :
    String × List LogEvent :=
  let r := serverService.FindServerByDofusPortalsID dofusPortalsID
  if r.2 then (r.1.ID, [])
  else (dofusPortalsID,
    [⟨LogLevel.Warn, LogKey.LogServerID, dofusPortalsID,
      "Server not found with following dofusPortalsID, using it as internal one"⟩])

/-- The function `getInternalDimensionID` (portals.go, 113-122). -/
def getInternalDimensionID (dofusPortalsID : String) (dimensionService : dimensions.Service) :
    String × List LogEvent :=
  let r := dimensionService.FindDimensionByDofusPortalsID dofusPortalsID
  if r.2 then (r.1.ID, [])
  else (dofusPortalsID,
    [⟨LogLevel.Warn, LogKey.LogDimensionID, dofusPortalsID,
      "Dimension not found with following dofusPortalsID, using it as internal one"⟩])

/-- The function `getInternalAreaID` (portals.go, 124-133). -/
def getInternalAreaID (dofusPortalsID : String) (areaService : areas.Service) :
    String × List LogEvent :=
  let r := areaService.FindAreaByDofusPortalsID dofusPortalsID
  if r.2 then (r.1.ID, [])
  else (dofusPortalsID,
    [⟨LogLevel.Warn, LogKey.LogAreaID, dofusPortalsID,
      "Area not found with following dofusPortalsID, using it as internal one"⟩])

/-- The function `getInternalSubAreaID` (portals.go, 135-144). -/
def getInternalSubAreaID (dofusPortalsID : String) (Service : subareas.Service) :
    String × List LogEvent :=
  let r := Service.FindSubAreaByDofusPortalsID dofusPortalsID
  if r.2 then (r.1.ID, [])
  else (dofusPortalsID,
    [⟨LogLevel.Warn, LogKey.LogSubAreaID, dofusPortalsID,
      "SubArea not found with following dofusPortalsID, using it as internal one"⟩])

/-- The function `getInternalTransportTypeID` (portals.go, 146-155). -/
def getInternalTransportTypeID (dofusPortalsID : String)
    (transportService : transports.Service) : String × List LogEvent :=
  let r := transportService.FindTransportTypeByDofusPortalsID dofusPortalsID
  if r.2 then (r.1.ID, [])
  else (dofusPortalsID,
    [⟨LogLevel.Warn, LogKey.LogTransportTypeID, dofusPortalsID,
      "TransportType not found with following dofusPortalsID, using it as internal one"⟩])

/-! ## The mappers -/

/-- The function `mapTransport` (portals.go, 62-76). -/
def mapTransport (transport : Option dofusportals.Transport) (areaService : areas.Service)
    (Service : subareas.Service) (transportService : transports.Service) :
    Option amqp.PortalPositionAnswer_PortalPosition_Position_Transport × List LogEvent :=
  match transport with
  | none => (none, [])
  | some transport =>
    let areaId := getInternalAreaID transport.Area areaService
    let subAreaId := getInternalSubAreaID transport.SubArea Service
    let typeId := getInternalTransportTypeID transport.Type_ transportService
    (some
      { AreaId := areaId.1
        SubAreaId := subAreaId.1
        TypeId := typeId.1
        X := int32 transport.X
        Y := int32 transport.Y },
     areaId.2 ++ subAreaId.2 ++ typeId.2)

/-- The function `mapPosition` (portals.go, 41-60). -/
def mapPosition (position : Option dofusportals.Position) (areaService : areas.Service)
    (Service : subareas.Service) (transportService : transports.Service) :
    Option amqp.PortalPositionAnswer_PortalPosition_Position × List LogEvent :=
  match position with
  | none => (none, [])
  | some position =>
    let isInCanopy :=
      match position.IsInCanopy with
      | some true => true
      | _ => false
    let transport := mapTransport position.Transport areaService Service transportService
    let conditionalTransport :=
      mapTransport position.ConditionalTransport areaService Service transportService
    (some
      { X := int32 position.X
        Y := int32 position.Y
        IsInCanopy := isInCanopy
        Transport := transport.1
        ConditionalTransport := conditionalTransport.1 },
     transport.2 ++ conditionalTransport.2)

/-- The function `mapUser` (portals.go, 78-84). -/
def mapUser (user : Option dofusportals.User) : String :=
  match user with
  | none => ""
  | some user => user.Name

/-- The constructor `timestamppb.New`: the seconds and the nanosecond part of the instant. -/
def timestamppb.New (t : time.Time) : timestamppb.Timestamp :=
  { Seconds := t.Unix, Nanos := int32 (t.Nanosecond.val : Int) }

/-- The function `mapTimestamp` (portals.go, 86-92). -/
def mapTimestamp (timestamp : Option time.Time) : Option timestamppb.Timestamp :=
  match timestamp with
  | none => none
  | some timestamp => some (timestamppb.New timestamp)

/-- The function `mapSource` (portals.go, 94-100). -/
def mapSource (source : models.Source) :
    Option amqp.PortalPositionAnswer_PortalPosition_Source :=
  some { Name := source.Name, Icon := source.Icon, Url := source.Url }

/-- The function `MapPortal` (portals.go, 19-39). The package constant
`models.SourceDofusPortals`, whose value is not in the sources, is the first
argument. -/
def MapPortal (SourceDofusPortals : models.Source) (portal : dofusportals.Portal)
    (serverService : servers.Service) (dimensionService : dimensions.Service)
    (areaService : areas.Service) (Service : subareas.Service)
    (transportService : transports.Service) :
    Option amqp.PortalPositionAnswer_PortalPosition × List LogEvent :=
  let remainingUses : Int :=
    match portal.RemainingUses with
    | none => 0
    | some v => int32 v
  let serverId := getInternalServerID portal.Server serverService
  let dimensionId := getInternalDimensionID portal.Dimension dimensionService
  let position := mapPosition portal.Position areaService Service transportService
  (some
    { ServerId := serverId.1
      DimensionId := dimensionId.1
      Position := position.1
      RemainingUses := remainingUses
      CreatedBy := mapUser portal.CreatedBy
      CreatedAt := mapTimestamp portal.CreatedAt
      UpdatedBy := mapUser portal.UpdatedBy
      UpdatedAt := mapTimestamp portal.UpdatedAt
      Source := mapSource SourceDofusPortals },
   serverId.2 ++ dimensionId.2 ++ position.2)

/-! ## Catalogs used as concrete inputs -/

/-- A server catalog with the single entry `s1 ↦ S1`; a miss returns the zero
entity and `false`. -/
def scenarioServers : servers.Service :=
  ⟨fun id => if id = "s1" then (⟨"S1", "s1"⟩, true) else (⟨"", ""⟩, false)⟩

/-- A dimension catalog with the single entry `d1 ↦ D1`. -/
def scenarioDimensions : dimensions.Service :=
  ⟨fun id => if id = "d1" then (⟨"D1", "d1"⟩, true) else (⟨"", ""⟩, false)⟩

/-- An area catalog with the single entry `a1 ↦ A1`. -/
def scenarioAreas : areas.Service :=
  ⟨fun id => if id = "a1" then (⟨"A1", "a1"⟩, true) else (⟨"", ""⟩, false)⟩

/-- A sub-area catalog with the single entry `sa1 ↦ SA1`. -/
def scenarioSubAreas : subareas.Service :=
  ⟨fun id => if id = "sa1" then (⟨"SA1", "sa1"⟩, true) else (⟨"", ""⟩, false)⟩

/-- A transport-type catalog with the single entry `zaap ↦ TT1`. -/
def scenarioTransports : transports.Service :=
  ⟨fun id => if id = "zaap" then (⟨"TT1", "zaap"⟩, true) else (⟨"", ""⟩, false)⟩

/-- A server catalog without entries: every lookup misses. -/
def emptyServers : servers.Service := ⟨fun _ => (⟨"", ""⟩, false)⟩

/-- A dimension catalog without entries. -/
def emptyDimensions : dimensions.Service := ⟨fun _ => (⟨"", ""⟩, false)⟩

/-- An area catalog without entries. -/
def emptyAreas : areas.Service := ⟨fun _ => (⟨"", ""⟩, false)⟩

/-- A sub-area catalog without entries. -/
def emptySubAreas : subareas.Service := ⟨fun _ => (⟨"", ""⟩, false)⟩

/-- A transport-type catalog without entries. -/
def emptyTransports : transports.Service := ⟨fun _ => (⟨"", ""⟩, false)⟩

/-- A stand-in value for the constant `models.SourceDofusPortals`. -/
def scenarioSource : models.Source :=
  { Name := "dofus-portals", Icon := "icon", Url := "url" }

/-- The transport of the scenario record. -/
def scenarioTransport : dofusportals.Transport :=
  { Area := "a1", SubArea := "sa1", Type_ := "zaap", X := 5, Y := -3 }

/-- The position of the scenario record. -/
def scenarioPosition : dofusportals.Position :=
  { X := 5, Y := -3, IsInCanopy := some true,
    Transport := some scenarioTransport, ConditionalTransport := none }

/-- The record of the scenarios of the design, with `createdAt` the instant
`(1700000000 s, 42 ns)`. -/
def scenarioPortal : dofusportals.Portal :=
  { Server := "s1", Dimension := "d1", Position := some scenarioPosition,
    RemainingUses := some 3, CreatedBy := some ⟨"Bob"⟩, UpdatedBy := none,
    CreatedAt := some ⟨1700000000, 42⟩, UpdatedAt := none }

/-- The scenario record with a use count one past the largest `int32`. -/
def wideUsesPortal : dofusportals.Portal :=
  { scenarioPortal with RemainingUses := some 2147483648 }

/-- The scenario position with an `x` one past the largest `int32` and a `y`
one below the smallest. -/
def widePosition : dofusportals.Position :=
  { scenarioPosition with X := 2147483648, Y := -2147483649 }

/-- The scenario record at the position `widePosition`. -/
def widePositionPortal : dofusportals.Portal :=
  { scenarioPortal with Position := some widePosition }

/-- The scenario record without position, use count, users and timestamps. -/
def barePortal : dofusportals.Portal :=
  { Server := "s1", Dimension := "d1", Position := none, RemainingUses := none,
    CreatedBy := none, UpdatedBy := none, CreatedAt := none, UpdatedAt := none }

/-- A transport naming identifiers the scenario catalogs do not hold. -/
def unknownTransport : dofusportals.Transport :=
  { Area := "a2", SubArea := "sa2", Type_ := "zaapi", X := -7, Y := 12 }

/-- The scenario position with both transports present and the canopy flag
explicitly false. -/
def twoTransportsPosition : dofusportals.Position :=
  { scenarioPosition with
    IsInCanopy := some false, ConditionalTransport := some unknownTransport }

/-- The scenario record at the position `twoTransportsPosition`, with an
updating user whose name is empty. -/
def twoTransportsPortal : dofusportals.Portal :=
  { scenarioPortal with Position := some twoTransportsPosition, UpdatedBy := some ⟨""⟩ }

/-! ## The catalog lookups of one call -/

/-- The five kinds of catalog. -/
inductive CatalogKind where
  | Server
  | Dimension
  | Area
  | SubArea
  | TransportType
  deriving DecidableEq, Repr

/-- The log key under which the helper of a catalog kind reports a miss. -/
def CatalogKind.logKey : CatalogKind → LogKey
  | CatalogKind.Server => LogKey.LogServerID
  | CatalogKind.Dimension => LogKey.LogDimensionID
  | CatalogKind.Area => LogKey.LogAreaID
  | CatalogKind.SubArea => LogKey.LogSubAreaID
  | CatalogKind.TransportType => LogKey.LogTransportTypeID

/-- One catalog lookup: the catalog asked, the identifier asked for and the
`found` flag the catalog answered. -/
structure Lookup where
  kind : CatalogKind
  id : String
  found : Bool
  deriving DecidableEq, Repr

/-- The lookups `mapTransport` performs, in program order: through its three
helpers, the area, the sub-area and the transport type of a present
transport; none for a nil transport. -/
def lookupsTransport (transport : Option dofusportals.Transport)
    (areaService : areas.Service) (Service : subareas.Service)
    (transportService : transports.Service) : List Lookup :=
  match transport with
  | none => []
  | some transport =>
    [⟨CatalogKind.Area, transport.Area,
        (areaService.FindAreaByDofusPortalsID transport.Area).2⟩,
     ⟨CatalogKind.SubArea, transport.SubArea,
        (Service.FindSubAreaByDofusPortalsID transport.SubArea).2⟩,
     ⟨CatalogKind.TransportType, transport.Type_,
        (transportService.FindTransportTypeByDofusPortalsID transport.Type_).2⟩]

/-- The lookups `mapPosition` performs, in program order: those of its two
calls of `mapTransport`; none for a nil position. -/
def lookupsPosition (position : Option dofusportals.Position)
    (areaService : areas.Service) (Service : subareas.Service)
    (transportService : transports.Service) : List Lookup :=
  match position with
  | none => []
  | some position =>
    lookupsTransport position.Transport areaService Service transportService ++
      lookupsTransport position.ConditionalTransport areaService Service transportService

/-- The lookups `MapPortal` performs, in program order: the server, the
dimension, then those of `mapPosition`. -/
def lookupsPortal (portal : dofusportals.Portal) (serverService : servers.Service)
    (dimensionService : dimensions.Service) (areaService : areas.Service)
    (Service : subareas.Service) (transportService : transports.Service) : List Lookup :=
  [⟨CatalogKind.Server, portal.Server,
      (serverService.FindServerByDofusPortalsID portal.Server).2⟩,
   ⟨CatalogKind.Dimension, portal.Dimension,
      (dimensionService.FindDimensionByDofusPortalsID portal.Dimension).2⟩] ++
    lookupsPosition portal.Position areaService Service transportService

/-- The number of present transports of a record: those among transport and
conditionalTransport of a present position, 0 for an absent position. -/
def presentTransports (portal : dofusportals.Portal) : Nat :=
  match portal.Position with
  | none => 0
  | some position =>
    (if position.Transport.isSome then 1 else 0) +
      (if position.ConditionalTransport.isSome then 1 else 0)

/-- The scenario record at an arbitrary instant of creation. -/
def scenarioPortalAt (T1 : time.Time) : dofusportals.Portal :=
  { scenarioPortal with CreatedAt := some T1 }

/-- The message the first scenario of the design expects for the record
`scenarioPortalAt T1`, with the source built from the constant `src`. -/
def scenarioMessage (src : models.Source) (T1 : time.Time) :
    amqp.PortalPositionAnswer_PortalPosition :=
  { ServerId := "S1"
    DimensionId := "D1"
    Position := some
      { X := 5, Y := -3, IsInCanopy := true
        Transport := some { AreaId := "A1", SubAreaId := "SA1", TypeId := "TT1", X := 5, Y := -3 }
        ConditionalTransport := none }
    RemainingUses := 3
    CreatedBy := "Bob"
    CreatedAt := some { Seconds := T1.Unix, Nanos := (T1.Nanosecond.val : Int) }
    UpdatedBy := ""
    UpdatedAt := none
    Source := some { Name := src.Name, Icon := src.Icon, Url := src.Url } }

/-! ## The mapper with its run-time panics

The definitions above read a pointer only where the source has tested it. The
definitions of this section keep the test and the dereference apart: a
dereference of nil, and a method call on a nil interface value, abort the run,
as in Go. A catalog handle is here an interface value, nil (`none`) or a
service. -/

/-- The run-time panic the mapper can raise: invalid memory address or nil
pointer dereference. -/
inductive Panic where
  | nilDereference
  deriving DecidableEq, Repr

/-- The dereference `*p`, the field access `p.f` through a pointer and the
method call on an interface value: the value behind `p`, a panic for nil. -/
def deref {α : Type} (p : Option α) : Except Panic α :=
  match p with
  | none => Except.error Panic.nilDereference
  | some v => Except.ok v

/-- The function `getInternalServerID` (portals.go, 102-111), with the method
call on the interface value. -/
def Panicking.getInternalServerID (dofusPortalsID : String)
    (serverService : Option servers.Service) : Except Panic (String × List LogEvent) := do
  let service ← deref serverService
  let r := service.FindServerByDofusPortalsID dofusPortalsID
  if r.2 then pure (r.1.ID, [])
  else pure (dofusPortalsID,
    [⟨LogLevel.Warn, LogKey.LogServerID, dofusPortalsID,
      "Server not found with following dofusPortalsID, using it as internal one"⟩])

/-- The function `getInternalDimensionID` (portals.go, 113-122), with the method
call on the interface value. -/
def Panicking.getInternalDimensionID (dofusPortalsID : String)
    (dimensionService : Option dimensions.Service) :
    Except Panic (String × List LogEvent) := do
  let service ← deref dimensionService
  let r := service.FindDimensionByDofusPortalsID dofusPortalsID
  if r.2 then pure (r.1.ID, [])
  else pure (dofusPortalsID,
    [⟨LogLevel.Warn, LogKey.LogDimensionID, dofusPortalsID,
      "Dimension not found with following dofusPortalsID, using it as internal one"⟩])

/-- The function `getInternalAreaID` (portals.go, 124-133), with the method call
on the interface value. -/
def Panicking.getInternalAreaID (dofusPortalsID : String)
    (areaService : Option areas.Service) : Except Panic (String × List LogEvent) := do
  let service ← deref areaService
  let r := service.FindAreaByDofusPortalsID dofusPortalsID
  if r.2 then pure (r.1.ID, [])
  else pure (dofusPortalsID,
    [⟨LogLevel.Warn, LogKey.LogAreaID, dofusPortalsID,
      "Area not found with following dofusPortalsID, using it as internal one"⟩])

/-- The function `getInternalSubAreaID` (portals.go, 135-144), with the method
call on the interface value. -/
def Panicking.getInternalSubAreaID (dofusPortalsID : String)
    (Service : Option subareas.Service) : Except Panic (String × List LogEvent) := do
  let service ← deref Service
  let r := service.FindSubAreaByDofusPortalsID dofusPortalsID
  if r.2 then pure (r.1.ID, [])
  else pure (dofusPortalsID,
    [⟨LogLevel.Warn, LogKey.LogSubAreaID, dofusPortalsID,
      "SubArea not found with following dofusPortalsID, using it as internal one"⟩])

/-- The function `getInternalTransportTypeID` (portals.go, 146-155), with the
method call on the interface value. -/
def Panicking.getInternalTransportTypeID (dofusPortalsID : String)
    (transportService : Option transports.Service) :
    Except Panic (String × List LogEvent) := do
  let service ← deref transportService
  let r := service.FindTransportTypeByDofusPortalsID dofusPortalsID
  if r.2 then pure (r.1.ID, [])
  else pure (dofusPortalsID,
    [⟨LogLevel.Warn, LogKey.LogTransportTypeID, dofusPortalsID,
      "TransportType not found with following dofusPortalsID, using it as internal one"⟩])

/-- The function `mapTransport` (portals.go, 62-76): the nil test, then the
field accesses through the pointer. -/
def Panicking.mapTransport (transport : Option dofusportals.Transport)
    (areaService : Option areas.Service) (Service : Option subareas.Service)
    (transportService : Option transports.Service) :
    Except Panic
      (Option amqp.PortalPositionAnswer_PortalPosition_Position_Transport × List LogEvent) :=
  if transport.isNone then pure (none, [])
  else do
    let tr ← deref transport
    let areaId ← Panicking.getInternalAreaID tr.Area areaService
    let subAreaId ← Panicking.getInternalSubAreaID tr.SubArea Service
    let typeId ← Panicking.getInternalTransportTypeID tr.Type_ transportService
    pure (some
      { AreaId := areaId.1
        SubAreaId := subAreaId.1
        TypeId := typeId.1
        X := int32 tr.X
        Y := int32 tr.Y },
     areaId.2 ++ subAreaId.2 ++ typeId.2)

/-- The function `mapPosition` (portals.go, 41-60): the nil test, the canopy
flag read behind its own nil test (the right operand of `&&` is evaluated only
when the left one holds), then the two transports. -/
def Panicking.mapPosition (position : Option dofusportals.Position)
    (areaService : Option areas.Service) (Service : Option subareas.Service)
    (transportService : Option transports.Service) :
    Except Panic (Option amqp.PortalPositionAnswer_PortalPosition_Position × List LogEvent) :=
  if position.isNone then pure (none, [])
  else do
    let pos ← deref position
    let cond ← (if pos.IsInCanopy.isSome then deref pos.IsInCanopy else pure false)
    let isInCanopy := if cond then true else false
    let transport ← Panicking.mapTransport pos.Transport areaService Service transportService
    let conditionalTransport ←
      Panicking.mapTransport pos.ConditionalTransport areaService Service transportService
    pure (some
      { X := int32 pos.X
        Y := int32 pos.Y
        IsInCanopy := isInCanopy
        Transport := transport.1
        ConditionalTransport := conditionalTransport.1 },
     transport.2 ++ conditionalTransport.2)

/-- The function `mapUser` (portals.go, 78-84): the nil test, then `user.Name`. -/
def Panicking.mapUser (user : Option dofusportals.User) : Except Panic String :=
  if user.isNone then pure ""
  else do
    let u ← deref user
    pure u.Name

/-- The function `mapTimestamp` (portals.go, 86-92): the nil test, then
`*timestamp`. -/
def Panicking.mapTimestamp (timestamp : Option time.Time) :
    Except Panic (Option timestamppb.Timestamp) :=
  if timestamp.isNone then pure none
  else do
    let ts ← deref timestamp
    pure (some (timestamppb.New ts))

/-- The function `MapPortal` (portals.go, 19-39): the use count read behind its
nil test, then the calls of the composite literal from left to right. The
record is passed by value; the five catalog handles are interface values. -/
def Panicking.MapPortal (SourceDofusPortals : models.Source) (portal : dofusportals.Portal)
    (serverService : Option servers.Service) (dimensionService : Option dimensions.Service)
    (areaService : Option areas.Service) (Service : Option subareas.Service)
    (transportService : Option transports.Service) :
    Except Panic (Option amqp.PortalPositionAnswer_PortalPosition × List LogEvent) := do
  let remainingUses : Int ←
    (if portal.RemainingUses.isSome then do
      let v ← deref portal.RemainingUses
      pure (int32 v)
    else pure 0)
  let serverId ← Panicking.getInternalServerID portal.Server serverService
  let dimensionId ← Panicking.getInternalDimensionID portal.Dimension dimensionService
  let position ← Panicking.mapPosition portal.Position areaService Service transportService
  let createdBy ← Panicking.mapUser portal.CreatedBy
  let createdAt ← Panicking.mapTimestamp portal.CreatedAt
  let updatedBy ← Panicking.mapUser portal.UpdatedBy
  let updatedAt ← Panicking.mapTimestamp portal.UpdatedAt
  pure (some
    { ServerId := serverId.1
      DimensionId := dimensionId.1
      Position := position.1
      RemainingUses := remainingUses
      CreatedBy := createdBy
      CreatedAt := createdAt
      UpdatedBy := updatedBy
      UpdatedAt := updatedAt
      Source := mapSource SourceDofusPortals },
   serverId.2 ++ dimensionId.2 ++ position.2)

/-! ## Auxiliary facts -/

/-- A value of the signed 32-bit range is its own `int32` conversion. -/
theorem int32_eq_self (v : Int) (hlo : -2147483648 ≤ v) (hhi : v ≤ 2147483647) :
    int32 v = v := by
  unfold int32
  omega

/-- The message `MapPortal` builds, field by field. -/
theorem MapPortal_fst (src : models.Source) (p : dofusportals.Portal) (s : servers.Service)
    (d : dimensions.Service) (a : areas.Service) (sa : subareas.Service)
    (t : transports.Service) :
    (MapPortal src p s d a sa t).1 = some
      { ServerId := (getInternalServerID p.Server s).1
        DimensionId := (getInternalDimensionID p.Dimension d).1
        Position := (mapPosition p.Position a sa t).1
        RemainingUses := (match p.RemainingUses with
          | none => 0
          | some v => int32 v)
        CreatedBy := mapUser p.CreatedBy
        CreatedAt := mapTimestamp p.CreatedAt
        UpdatedBy := mapUser p.UpdatedBy
        UpdatedAt := mapTimestamp p.UpdatedAt
        Source := mapSource src } := rfl

/-- The position `mapPosition` builds from a present position. -/
theorem mapPosition_some (pos : dofusportals.Position) (a : areas.Service)
    (sa : subareas.Service) (t : transports.Service) :
    (mapPosition (some pos) a sa t).1 = some
      { X := int32 pos.X
        Y := int32 pos.Y
        IsInCanopy := (match pos.IsInCanopy with
          | some true => true
          | _ => false)
        Transport := (mapTransport pos.Transport a sa t).1
        ConditionalTransport := (mapTransport pos.ConditionalTransport a sa t).1 } := rfl

/-- The transport `mapTransport` builds from a present transport. -/
theorem mapTransport_some (tr : dofusportals.Transport) (a : areas.Service)
    (sa : subareas.Service) (t : transports.Service) :
    (mapTransport (some tr) a sa t).1 = some
      { AreaId := (getInternalAreaID tr.Area a).1
        SubAreaId := (getInternalSubAreaID tr.SubArea sa).1
        TypeId := (getInternalTransportTypeID tr.Type_ t).1
        X := int32 tr.X
        Y := int32 tr.Y } := rfl

/-- The identifier `getInternalServerID` returns. -/
theorem getInternalServerID_fst (id : String) (s : servers.Service) :
    (getInternalServerID id s).1 =
      if (s.FindServerByDofusPortalsID id).2 = true
      then (s.FindServerByDofusPortalsID id).1.ID else id := by
  unfold getInternalServerID
  by_cases h : (s.FindServerByDofusPortalsID id).2 = true <;> simp [h]

/-- The identifier `getInternalDimensionID` returns. -/
theorem getInternalDimensionID_fst (id : String) (d : dimensions.Service) :
    (getInternalDimensionID id d).1 =
      if (d.FindDimensionByDofusPortalsID id).2 = true
      then (d.FindDimensionByDofusPortalsID id).1.ID else id := by
  unfold getInternalDimensionID
  by_cases h : (d.FindDimensionByDofusPortalsID id).2 = true <;> simp [h]

/-- The identifier `getInternalAreaID` returns. -/
theorem getInternalAreaID_fst (id : String) (a : areas.Service) :
    (getInternalAreaID id a).1 =
      if (a.FindAreaByDofusPortalsID id).2 = true
      then (a.FindAreaByDofusPortalsID id).1.ID else id := by
  unfold getInternalAreaID
  by_cases h : (a.FindAreaByDofusPortalsID id).2 = true <;> simp [h]

/-- The identifier `getInternalSubAreaID` returns. -/
theorem getInternalSubAreaID_fst (id : String) (sa : subareas.Service) :
    (getInternalSubAreaID id sa).1 =
      if (sa.FindSubAreaByDofusPortalsID id).2 = true
      then (sa.FindSubAreaByDofusPortalsID id).1.ID else id := by
  unfold getInternalSubAreaID
  by_cases h : (sa.FindSubAreaByDofusPortalsID id).2 = true <;> simp [h]

/-- The identifier `getInternalTransportTypeID` returns. -/
theorem getInternalTransportTypeID_fst (id : String) (t : transports.Service) :
    (getInternalTransportTypeID id t).1 =
      if (t.FindTransportTypeByDofusPortalsID id).2 = true
      then (t.FindTransportTypeByDofusPortalsID id).1.ID else id := by
  unfold getInternalTransportTypeID
  by_cases h : (t.FindTransportTypeByDofusPortalsID id).2 = true <;> simp [h]

/-- A present position of the record yields the position `mapPosition` builds. -/
theorem MapPortal_position_some (src : models.Source) (p : dofusportals.Portal)
    (pos : dofusportals.Position) (s : servers.Service) (d : dimensions.Service)
    (a : areas.Service) (sa : subareas.Service) (t : transports.Service)
    (hpos : p.Position = some pos) :
    ∃ out, (MapPortal src p s d a sa t).1 = some out ∧
      out.Position = some
        { X := int32 pos.X
          Y := int32 pos.Y
          IsInCanopy := (match pos.IsInCanopy with
            | some true => true
            | _ => false)
          Transport := (mapTransport pos.Transport a sa t).1
          ConditionalTransport := (mapTransport pos.ConditionalTransport a sa t).1 } := by
  refine ⟨_, MapPortal_fst src p s d a sa t, ?_⟩
  show (mapPosition p.Position a sa t).1 = _
  rw [hpos]
  rfl

/-- The slot `mapTransport` returns is nil exactly for a nil transport. -/
theorem mapTransport_fst_eq_none_iff (tr : Option dofusportals.Transport)
    (a : areas.Service) (sa : subareas.Service) (t : transports.Service) :
    (mapTransport tr a sa t).1 = none ↔ tr = none := by
  cases tr <;> simp [mapTransport]

/-! ## Identifier resolution -/

/-- C1. For each of the five identifier kinds: when the catalog lookup of an
external identifier reports not found, the helper returns the external
identifier itself and submits exactly one event, a warning whose key is the
one of that catalog kind, whose value is the external identifier and whose
message names the kind. -/
theorem getInternalID_not_found :
    (∀ (s : servers.Service) (id : String) (e : entities.Server),
      s.FindServerByDofusPortalsID id = (e, false) →
      getInternalServerID id s = (id, [⟨LogLevel.Warn, LogKey.LogServerID, id,
        "Server not found with following dofusPortalsID, using it as internal one"⟩])) ∧
    (∀ (s : dimensions.Service) (id : String) (e : entities.Dimension),
      s.FindDimensionByDofusPortalsID id = (e, false) →
      getInternalDimensionID id s = (id, [⟨LogLevel.Warn, LogKey.LogDimensionID, id,
        "Dimension not found with following dofusPortalsID, using it as internal one"⟩])) ∧
    (∀ (s : areas.Service) (id : String) (e : entities.Area),
      s.FindAreaByDofusPortalsID id = (e, false) →
      getInternalAreaID id s = (id, [⟨LogLevel.Warn, LogKey.LogAreaID, id,
        "Area not found with following dofusPortalsID, using it as internal one"⟩])) ∧
    (∀ (s : subareas.Service) (id : String) (e : entities.SubArea),
      s.FindSubAreaByDofusPortalsID id = (e, false) →
      getInternalSubAreaID id s = (id, [⟨LogLevel.Warn, LogKey.LogSubAreaID, id,
        "SubArea not found with following dofusPortalsID, using it as internal one"⟩])) ∧
    (∀ (s : transports.Service) (id : String) (e : entities.TransportType),
      s.FindTransportTypeByDofusPortalsID id = (e, false) →
      getInternalTransportTypeID id s = (id, [⟨LogLevel.Warn, LogKey.LogTransportTypeID, id,
        "TransportType not found with following dofusPortalsID, using it as internal one"⟩])) := by
  refine ⟨?_, ?_, ?_, ?_, ?_⟩ <;> intro s id e h
  · simp [getInternalServerID, h]
  · simp [getInternalDimensionID, h]
  · simp [getInternalAreaID, h]
  · simp [getInternalSubAreaID, h]
  · simp [getInternalTransportTypeID, h]

/-- The five helpers at identifiers the scenario catalogs do not hold. -/
theorem getInternalID_not_found_witness :
    getInternalServerID "s2" scenarioServers = ("s2", [⟨LogLevel.Warn, LogKey.LogServerID, "s2",
      "Server not found with following dofusPortalsID, using it as internal one"⟩]) ∧
    getInternalDimensionID "" scenarioDimensions = ("", [⟨LogLevel.Warn, LogKey.LogDimensionID, "",
      "Dimension not found with following dofusPortalsID, using it as internal one"⟩]) ∧
    getInternalAreaID "A1" scenarioAreas = ("A1", [⟨LogLevel.Warn, LogKey.LogAreaID, "A1",
      "Area not found with following dofusPortalsID, using it as internal one"⟩]) ∧
    getInternalSubAreaID "sa" emptySubAreas = ("sa", [⟨LogLevel.Warn, LogKey.LogSubAreaID, "sa",
      "SubArea not found with following dofusPortalsID, using it as internal one"⟩]) ∧
    getInternalTransportTypeID "zaapi" scenarioTransports =
      ("zaapi", [⟨LogLevel.Warn, LogKey.LogTransportTypeID, "zaapi",
      "TransportType not found with following dofusPortalsID, using it as internal one"⟩]) :=
  ⟨getInternalID_not_found.1 scenarioServers "s2" ⟨"", ""⟩ (by decide),
   getInternalID_not_found.2.1 scenarioDimensions "" ⟨"", ""⟩ (by decide),
   getInternalID_not_found.2.2.1 scenarioAreas "A1" ⟨"", ""⟩ (by decide),
   getInternalID_not_found.2.2.2.1 emptySubAreas "sa" ⟨"", ""⟩ rfl,
   getInternalID_not_found.2.2.2.2 scenarioTransports "zaapi" ⟨"", ""⟩ (by decide)⟩

/-- C2. For each of the five identifier kinds: when the catalog lookup of an
external identifier returns an entity with found = true, the helper returns
the internal ID of that entity, whatever it is, and submits no event. -/
theorem getInternalID_found :
    (∀ (s : servers.Service) (id : String) (e : entities.Server),
      s.FindServerByDofusPortalsID id = (e, true) → getInternalServerID id s = (e.ID, [])) ∧
    (∀ (s : dimensions.Service) (id : String) (e : entities.Dimension),
      s.FindDimensionByDofusPortalsID id = (e, true) →
      getInternalDimensionID id s = (e.ID, [])) ∧
    (∀ (s : areas.Service) (id : String) (e : entities.Area),
      s.FindAreaByDofusPortalsID id = (e, true) → getInternalAreaID id s = (e.ID, [])) ∧
    (∀ (s : subareas.Service) (id : String) (e : entities.SubArea),
      s.FindSubAreaByDofusPortalsID id = (e, true) → getInternalSubAreaID id s = (e.ID, [])) ∧
    (∀ (s : transports.Service) (id : String) (e : entities.TransportType),
      s.FindTransportTypeByDofusPortalsID id = (e, true) →
      getInternalTransportTypeID id s = (e.ID, [])) := by
  refine ⟨?_, ?_, ?_, ?_, ?_⟩ <;> intro s id e h
  · simp [getInternalServerID, h]
  · simp [getInternalDimensionID, h]
  · simp [getInternalAreaID, h]
  · simp [getInternalSubAreaID, h]
  · simp [getInternalTransportTypeID, h]

/-- The five helpers at hits: an internal id that differs from the external
one, and an entity whose internal id is the empty string. -/
theorem getInternalID_found_witness :
    getInternalServerID "s1" scenarioServers = ("S1", []) ∧
    getInternalDimensionID "d1" scenarioDimensions = ("D1", []) ∧
    getInternalAreaID "a1" scenarioAreas = ("A1", []) ∧
    getInternalSubAreaID "x" ⟨fun _ => (⟨"", "x"⟩, true)⟩ = ("", []) ∧
    getInternalTransportTypeID "zaap" scenarioTransports = ("TT1", []) :=
  ⟨getInternalID_found.1 scenarioServers "s1" ⟨"S1", "s1"⟩ (by decide),
   getInternalID_found.2.1 scenarioDimensions "d1" ⟨"D1", "d1"⟩ (by decide),
   getInternalID_found.2.2.1 scenarioAreas "a1" ⟨"A1", "a1"⟩ (by decide),
   getInternalID_found.2.2.2.1 ⟨fun _ => (⟨"", "x"⟩, true)⟩ "x" ⟨"", "x"⟩ rfl,
   getInternalID_found.2.2.2.2 scenarioTransports "zaap" ⟨"TT1", "zaap"⟩ (by decide)⟩

/-! ## The top-level fields of the message -/

/-- C3. In the message of `MapPortal`, serverId is the resolution of the server
external id of the record against the server catalog and dimensionId the
resolution of its dimension external id against the dimension catalog: the
internal id on a hit, the external id on a miss. Neither depends on anything
else: a call on any record with the same server id (dimension id) and the same
server (dimension) catalog, whatever the other arguments, yields the same
serverId (dimensionId). -/
theorem MapPortal_serverId_dimensionId (src : models.Source) (p : dofusportals.Portal)
    (s : servers.Service) (d : dimensions.Service) (a : areas.Service)
    (sa : subareas.Service) (t : transports.Service) :
    ∃ out, (MapPortal src p s d a sa t).1 = some out ∧
      out.ServerId = (if (s.FindServerByDofusPortalsID p.Server).2 = true
        then (s.FindServerByDofusPortalsID p.Server).1.ID else p.Server) ∧
      out.DimensionId = (if (d.FindDimensionByDofusPortalsID p.Dimension).2 = true
        then (d.FindDimensionByDofusPortalsID p.Dimension).1.ID else p.Dimension) ∧
      (∀ (src2 : models.Source) (p2 : dofusportals.Portal) (d2 : dimensions.Service)
          (a2 : areas.Service) (sa2 : subareas.Service) (t2 : transports.Service),
        p2.Server = p.Server →
        ∃ out2, (MapPortal src2 p2 s d2 a2 sa2 t2).1 = some out2 ∧
          out2.ServerId = out.ServerId) ∧
      (∀ (src2 : models.Source) (p2 : dofusportals.Portal) (s2 : servers.Service)
          (a2 : areas.Service) (sa2 : subareas.Service) (t2 : transports.Service),
        p2.Dimension = p.Dimension →
        ∃ out2, (MapPortal src2 p2 s2 d a2 sa2 t2).1 = some out2 ∧
          out2.DimensionId = out.DimensionId) := by
  refine ⟨_, MapPortal_fst src p s d a sa t, ?_, ?_, ?_, ?_⟩
  · exact getInternalServerID_fst p.Server s
  · exact getInternalDimensionID_fst p.Dimension d
  · intro src2 p2 d2 a2 sa2 t2 h
    exact ⟨_, MapPortal_fst src2 p2 s d2 a2 sa2 t2, by simp [h]⟩
  · intro src2 p2 s2 a2 sa2 t2 h
    exact ⟨_, MapPortal_fst src2 p2 s2 d a2 sa2 t2, by simp [h]⟩

/-- The scenario record against the scenario catalogs resolves to S1 and D1;
against a server catalog without entries and a record that shares only the
server id, serverId is the external id s1. -/
theorem MapPortal_serverId_dimensionId_witness :
    (∃ out, (MapPortal scenarioSource scenarioPortal scenarioServers scenarioDimensions
        scenarioAreas scenarioSubAreas scenarioTransports).1 = some out ∧
      out.ServerId = "S1" ∧ out.DimensionId = "D1") ∧
    (∃ out, (MapPortal scenarioSource barePortal emptyServers emptyDimensions
        emptyAreas emptySubAreas emptyTransports).1 = some out ∧
      out.ServerId = "s1" ∧ out.DimensionId = "d1") ∧
    (∃ out out2, (MapPortal scenarioSource scenarioPortal scenarioServers scenarioDimensions
        scenarioAreas scenarioSubAreas scenarioTransports).1 = some out ∧
      (MapPortal scenarioSource barePortal scenarioServers emptyDimensions
        emptyAreas emptySubAreas emptyTransports).1 = some out2 ∧
      out2.ServerId = out.ServerId) := by
  obtain ⟨out, h1, h2, h3, h4, _⟩ :=
    MapPortal_serverId_dimensionId scenarioSource scenarioPortal scenarioServers
      scenarioDimensions scenarioAreas scenarioSubAreas scenarioTransports
  obtain ⟨out1, k1, k2, k3, _, _⟩ :=
    MapPortal_serverId_dimensionId scenarioSource barePortal emptyServers
      emptyDimensions emptyAreas emptySubAreas emptyTransports
  obtain ⟨out2, m1, m2⟩ :=
    h4 scenarioSource barePortal emptyDimensions emptyAreas emptySubAreas emptyTransports rfl
  exact ⟨⟨out, h1, h2.trans (by decide), h3.trans (by decide)⟩,
    ⟨out1, k1, k2.trans (by decide), k3.trans (by decide)⟩, ⟨out, out2, h1, m1, m2⟩⟩

/-- With a server catalog at hand the server helper returns, with the result
of `getInternalServerID`. -/
theorem run_getInternalServerID (id : String) (s : servers.Service) :
    Panicking.getInternalServerID id (some s) = Except.ok (getInternalServerID id s) := by
  unfold Panicking.getInternalServerID getInternalServerID
  by_cases h : (s.FindServerByDofusPortalsID id).2 = true <;>
    simp [deref, bind, Except.bind, pure, Except.pure, h]

/-- With a dimension catalog at hand the dimension helper returns. -/
theorem run_getInternalDimensionID (id : String) (d : dimensions.Service) :
    Panicking.getInternalDimensionID id (some d) =
      Except.ok (getInternalDimensionID id d) := by
  unfold Panicking.getInternalDimensionID getInternalDimensionID
  by_cases h : (d.FindDimensionByDofusPortalsID id).2 = true <;>
    simp [deref, bind, Except.bind, pure, Except.pure, h]

/-- With an area catalog at hand the area helper returns. -/
theorem run_getInternalAreaID (id : String) (a : areas.Service) :
    Panicking.getInternalAreaID id (some a) = Except.ok (getInternalAreaID id a) := by
  unfold Panicking.getInternalAreaID getInternalAreaID
  by_cases h : (a.FindAreaByDofusPortalsID id).2 = true <;>
    simp [deref, bind, Except.bind, pure, Except.pure, h]

/-- With a sub-area catalog at hand the sub-area helper returns. -/
theorem run_getInternalSubAreaID (id : String) (sa : subareas.Service) :
    Panicking.getInternalSubAreaID id (some sa) = Except.ok (getInternalSubAreaID id sa) := by
  unfold Panicking.getInternalSubAreaID getInternalSubAreaID
  by_cases h : (sa.FindSubAreaByDofusPortalsID id).2 = true <;>
    simp [deref, bind, Except.bind, pure, Except.pure, h]

/-- With a transport-type catalog at hand the transport-type helper returns. -/
theorem run_getInternalTransportTypeID (id : String) (t : transports.Service) :
    Panicking.getInternalTransportTypeID id (some t) =
      Except.ok (getInternalTransportTypeID id t) := by
  unfold Panicking.getInternalTransportTypeID getInternalTransportTypeID
  by_cases h : (t.FindTransportTypeByDofusPortalsID id).2 = true <;>
    simp [deref, bind, Except.bind, pure, Except.pure, h]

/-- With its three catalogs at hand `mapTransport` returns, for a nil and for a
present transport. -/
theorem run_mapTransport (tr : Option dofusportals.Transport) (a : areas.Service)
    (sa : subareas.Service) (t : transports.Service) :
    Panicking.mapTransport tr (some a) (some sa) (some t) =
      Except.ok (mapTransport tr a sa t) := by
  cases tr with
  | none => rfl
  | some tr =>
    simp only [Panicking.mapTransport, run_getInternalAreaID, run_getInternalSubAreaID,
      run_getInternalTransportTypeID, deref]
    rfl

/-- With its three catalogs at hand `mapPosition` returns, for a nil and for a
present position, whatever its canopy flag and transports. -/
theorem run_mapPosition (pos : Option dofusportals.Position) (a : areas.Service)
    (sa : subareas.Service) (t : transports.Service) :
    Panicking.mapPosition pos (some a) (some sa) (some t) =
      Except.ok (mapPosition pos a sa t) := by
  cases pos with
  | none => rfl
  | some pos =>
    obtain ⟨x, y, c, tr, ctr⟩ := pos
    simp only [Panicking.mapPosition, run_mapTransport, deref]
    rcases c with _ | _ | _ <;> rfl

/-- The function `mapUser` returns for a nil and for a present user. -/
theorem run_mapUser (u : Option dofusportals.User) :
    Panicking.mapUser u = Except.ok (mapUser u) := by
  cases u <;> rfl

/-- The function `mapTimestamp` returns for a nil and for a present instant. -/
theorem run_mapTimestamp (ts : Option time.Time) :
    Panicking.mapTimestamp ts = Except.ok (mapTimestamp ts) := by
  cases ts <;> rfl

/-- C4, as the code has it. For every record, whatever optional fields are
absent, and for every choice of five catalogs that are at hand (non-nil),
catalogs in which every lookup misses included, `MapPortal` returns: the run
raises no panic, its result is a message (not the nil pointer), and message
and warnings are those of the definition `MapPortal` above. -/
theorem MapPortal_returns_with_catalogs (src : models.Source) (p : dofusportals.Portal)
    (s : servers.Service) (d : dimensions.Service) (a : areas.Service)
    (sa : subareas.Service) (t : transports.Service) :
    Panicking.MapPortal src p (some s) (some d) (some a) (some sa) (some t) =
      Except.ok (MapPortal src p s d a sa t) ∧
    ∃ out ws, Panicking.MapPortal src p (some s) (some d) (some a) (some sa) (some t) =
      Except.ok (some out, ws) := by
  have h : Panicking.MapPortal src p (some s) (some d) (some a) (some sa) (some t) =
      Except.ok (MapPortal src p s d a sa t) := by
    obtain ⟨sv, dm, pos, ru, cb, ub, ca, ua⟩ := p
    simp only [Panicking.MapPortal, run_getInternalServerID, run_getInternalDimensionID,
      run_mapPosition, run_mapUser, run_mapTimestamp, deref]
    cases ru <;> rfl
  exact ⟨h, _, _, h⟩

/-- The record without any optional field against catalogs without entries:
the run returns a message with the external ids and two warnings. -/
theorem MapPortal_returns_with_catalogs_witness :
    Panicking.MapPortal scenarioSource barePortal (some emptyServers) (some emptyDimensions)
        (some emptyAreas) (some emptySubAreas) (some emptyTransports) =
      Except.ok (some
        { ServerId := "s1", DimensionId := "d1", Position := none, RemainingUses := 0,
          CreatedBy := "", CreatedAt := none, UpdatedBy := "", UpdatedAt := none,
          Source := some { Name := "dofus-portals", Icon := "icon", Url := "url" } },
        [⟨LogLevel.Warn, LogKey.LogServerID, "s1",
          "Server not found with following dofusPortalsID, using it as internal one"⟩,
         ⟨LogLevel.Warn, LogKey.LogDimensionID, "d1",
          "Dimension not found with following dofusPortalsID, using it as internal one"⟩]) :=
  (MapPortal_returns_with_catalogs scenarioSource barePortal emptyServers emptyDimensions
    emptyAreas emptySubAreas emptyTransports).1.trans rfl

/-- C4 as stated fails: with a nil handle for any one of the five catalogs the
run on the scenario record panics, at the method call on the nil interface
value. -/
theorem MapPortal_panics_on_nil_catalog :
    Panicking.MapPortal scenarioSource scenarioPortal none (some scenarioDimensions)
        (some scenarioAreas) (some scenarioSubAreas) (some scenarioTransports) =
      Except.error Panic.nilDereference ∧
    Panicking.MapPortal scenarioSource scenarioPortal (some scenarioServers) none
        (some scenarioAreas) (some scenarioSubAreas) (some scenarioTransports) =
      Except.error Panic.nilDereference ∧
    Panicking.MapPortal scenarioSource scenarioPortal (some scenarioServers)
        (some scenarioDimensions) none (some scenarioSubAreas) (some scenarioTransports) =
      Except.error Panic.nilDereference ∧
    Panicking.MapPortal scenarioSource scenarioPortal (some scenarioServers)
        (some scenarioDimensions) (some scenarioAreas) none (some scenarioTransports) =
      Except.error Panic.nilDereference ∧
    Panicking.MapPortal scenarioSource scenarioPortal (some scenarioServers)
        (some scenarioDimensions) (some scenarioAreas) (some scenarioSubAreas) none =
      Except.error Panic.nilDereference := by
  refine ⟨rfl, ?_, ?_, ?_, ?_⟩
  · simp only [Panicking.MapPortal, run_getInternalServerID]
    rfl
  · simp only [Panicking.MapPortal, run_getInternalServerID, run_getInternalDimensionID]
    rfl
  · simp only [Panicking.MapPortal, run_getInternalServerID, run_getInternalDimensionID]
    rfl
  · simp only [Panicking.MapPortal, run_getInternalServerID, run_getInternalDimensionID]
    rfl

/-- C5, as the code has it. When remainingUses is absent the output
remainingUses is 0; when it is present with a value v of the signed 32-bit
range, -2^31 ≤ v ≤ 2^31 - 1, the output remainingUses is v. -/
theorem MapPortal_remainingUses (src : models.Source) (p : dofusportals.Portal)
    (s : servers.Service) (d : dimensions.Service) (a : areas.Service)
    (sa : subareas.Service) (t : transports.Service) :
    ∃ out, (MapPortal src p s d a sa t).1 = some out ∧
      (p.RemainingUses = none → out.RemainingUses = 0) ∧
      (∀ v : Int, p.RemainingUses = some v → -2147483648 ≤ v → v ≤ 2147483647 →
        out.RemainingUses = v) := by
  refine ⟨_, MapPortal_fst src p s d a sa t, ?_, ?_⟩
  · intro h
    simp [h]
  · intro v h hlo hhi
    simp [h, int32_eq_self v hlo hhi]

/-- The use count of the scenario record, 3, and of a record without one. -/
theorem MapPortal_remainingUses_witness :
    (∃ out, (MapPortal scenarioSource scenarioPortal scenarioServers scenarioDimensions
        scenarioAreas scenarioSubAreas scenarioTransports).1 = some out ∧
      out.RemainingUses = 3) ∧
    (∃ out, (MapPortal scenarioSource barePortal scenarioServers scenarioDimensions
        scenarioAreas scenarioSubAreas scenarioTransports).1 = some out ∧
      out.RemainingUses = 0) :=
  ⟨(MapPortal_remainingUses scenarioSource scenarioPortal scenarioServers scenarioDimensions
      scenarioAreas scenarioSubAreas scenarioTransports).elim
      fun out h => ⟨out, h.1, h.2.2 3 rfl (by decide) (by decide)⟩,
   (MapPortal_remainingUses scenarioSource barePortal scenarioServers scenarioDimensions
      scenarioAreas scenarioSubAreas scenarioTransports).elim
      fun out h => ⟨out, h.1, h.2.1 rfl⟩⟩

/-- C5 as stated fails: a present use count of 2147483648 comes out as
-2147483648. -/
theorem MapPortal_remainingUses_not_verbatim :
    wideUsesPortal.RemainingUses = some 2147483648 ∧
    ∃ out, (MapPortal scenarioSource wideUsesPortal scenarioServers scenarioDimensions
        scenarioAreas scenarioSubAreas scenarioTransports).1 = some out ∧
      out.RemainingUses = -2147483648 ∧ out.RemainingUses ≠ 2147483648 :=
  ⟨rfl, _, MapPortal_fst _ _ _ _ _ _ _, by decide, by decide⟩

/-- C6. The output createdBy is the empty string when the createdBy user of
the record is absent and the name of that user, unchanged, when it is present,
an empty name included; likewise for updatedBy. -/
theorem MapPortal_createdBy_updatedBy (src : models.Source) (p : dofusportals.Portal)
    (s : servers.Service) (d : dimensions.Service) (a : areas.Service)
    (sa : subareas.Service) (t : transports.Service) :
    ∃ out, (MapPortal src p s d a sa t).1 = some out ∧
      (p.CreatedBy = none → out.CreatedBy = "") ∧
      (∀ u : dofusportals.User, p.CreatedBy = some u → out.CreatedBy = u.Name) ∧
      (p.UpdatedBy = none → out.UpdatedBy = "") ∧
      (∀ u : dofusportals.User, p.UpdatedBy = some u → out.UpdatedBy = u.Name) := by
  refine ⟨_, MapPortal_fst src p s d a sa t, ?_, ?_, ?_, ?_⟩
  · intro h
    simp [h, mapUser]
  · intro u h
    simp [h, mapUser]
  · intro h
    simp [h, mapUser]
  · intro u h
    simp [h, mapUser]

/-- The users of the scenario record (created by Bob, no updater) and of the
record whose updater has an empty name. -/
theorem MapPortal_createdBy_updatedBy_witness :
    (∃ out, (MapPortal scenarioSource scenarioPortal scenarioServers scenarioDimensions
        scenarioAreas scenarioSubAreas scenarioTransports).1 = some out ∧
      out.CreatedBy = "Bob" ∧ out.UpdatedBy = "") ∧
    (∃ out, (MapPortal scenarioSource twoTransportsPortal scenarioServers scenarioDimensions
        scenarioAreas scenarioSubAreas scenarioTransports).1 = some out ∧
      out.UpdatedBy = (⟨""⟩ : dofusportals.User).Name) :=
  ⟨(MapPortal_createdBy_updatedBy scenarioSource scenarioPortal scenarioServers
      scenarioDimensions scenarioAreas scenarioSubAreas scenarioTransports).elim
      fun out h => ⟨out, h.1, h.2.2.1 ⟨"Bob"⟩ rfl, h.2.2.2.1 rfl⟩,
   (MapPortal_createdBy_updatedBy scenarioSource twoTransportsPortal scenarioServers
      scenarioDimensions scenarioAreas scenarioSubAreas scenarioTransports).elim
      fun out h => ⟨out, h.1, h.2.2.2.2 ⟨""⟩ rfl⟩⟩

/-! ## The position and its transports -/

/-- C7. The output position of `MapPortal` is absent exactly when the position
of the record is absent; a present position yields a present, built one. -/
theorem MapPortal_position_absent_iff (src : models.Source) (p : dofusportals.Portal)
    (s : servers.Service) (d : dimensions.Service) (a : areas.Service)
    (sa : subareas.Service) (t : transports.Service) :
    ∃ out, (MapPortal src p s d a sa t).1 = some out ∧
      (out.Position = none ↔ p.Position = none) ∧
      (∀ pos : dofusportals.Position, p.Position = some pos →
        ∃ opos, out.Position = some opos) := by
  refine ⟨_, MapPortal_fst src p s d a sa t, ?_, ?_⟩
  · show (mapPosition p.Position a sa t).1 = none ↔ _
    cases p.Position <;> simp [mapPosition]
  · intro pos h
    show ∃ opos, (mapPosition p.Position a sa t).1 = some opos
    rw [h]
    exact ⟨_, mapPosition_some pos a sa t⟩

/-- The scenario record has a position and so has its message; the record
without position yields a message without position. -/
theorem MapPortal_position_absent_iff_witness :
    (∃ out opos, (MapPortal scenarioSource scenarioPortal scenarioServers scenarioDimensions
        scenarioAreas scenarioSubAreas scenarioTransports).1 = some out ∧
      out.Position = some opos) ∧
    (∃ out, (MapPortal scenarioSource barePortal scenarioServers scenarioDimensions
        scenarioAreas scenarioSubAreas scenarioTransports).1 = some out ∧
      out.Position = none) :=
  ⟨(MapPortal_position_absent_iff scenarioSource scenarioPortal scenarioServers
      scenarioDimensions scenarioAreas scenarioSubAreas scenarioTransports).elim
      fun out h => (h.2.2 scenarioPosition rfl).elim fun opos ho => ⟨out, opos, h.1, ho⟩,
   (MapPortal_position_absent_iff scenarioSource barePortal scenarioServers
      scenarioDimensions scenarioAreas scenarioSubAreas scenarioTransports).elim
      fun out h => ⟨out, h.1, h.2.1.mpr rfl⟩⟩

/-- C8. For a present input position and each of its slots transport and
conditionalTransport on its own: the output slot is absent exactly when the
input slot is absent, and for a present input slot the output slot has areaId,
subAreaId and typeId equal to the resolutions of the area id, the sub-area id
and the type (as a string) of the transport against the area, sub-area and
transport-type catalogs, the internal id on a hit and the external id on a
miss. -/
theorem MapPortal_transports (src : models.Source) (p : dofusportals.Portal)
    (pos : dofusportals.Position) (s : servers.Service) (d : dimensions.Service)
    (a : areas.Service) (sa : subareas.Service) (t : transports.Service)
    (hpos : p.Position = some pos) :
    ∃ out opos, (MapPortal src p s d a sa t).1 = some out ∧ out.Position = some opos ∧
      (opos.Transport = none ↔ pos.Transport = none) ∧
      (∀ tr : dofusportals.Transport, pos.Transport = some tr →
        ∃ otr, opos.Transport = some otr ∧
          otr.AreaId = (if (a.FindAreaByDofusPortalsID tr.Area).2 = true
            then (a.FindAreaByDofusPortalsID tr.Area).1.ID else tr.Area) ∧
          otr.SubAreaId = (if (sa.FindSubAreaByDofusPortalsID tr.SubArea).2 = true
            then (sa.FindSubAreaByDofusPortalsID tr.SubArea).1.ID else tr.SubArea) ∧
          otr.TypeId = (if (t.FindTransportTypeByDofusPortalsID tr.Type_).2 = true
            then (t.FindTransportTypeByDofusPortalsID tr.Type_).1.ID else tr.Type_)) ∧
      (opos.ConditionalTransport = none ↔ pos.ConditionalTransport = none) ∧
      (∀ tr : dofusportals.Transport, pos.ConditionalTransport = some tr →
        ∃ otr, opos.ConditionalTransport = some otr ∧
          otr.AreaId = (if (a.FindAreaByDofusPortalsID tr.Area).2 = true
            then (a.FindAreaByDofusPortalsID tr.Area).1.ID else tr.Area) ∧
          otr.SubAreaId = (if (sa.FindSubAreaByDofusPortalsID tr.SubArea).2 = true
            then (sa.FindSubAreaByDofusPortalsID tr.SubArea).1.ID else tr.SubArea) ∧
          otr.TypeId = (if (t.FindTransportTypeByDofusPortalsID tr.Type_).2 = true
            then (t.FindTransportTypeByDofusPortalsID tr.Type_).1.ID else tr.Type_)) := by
  obtain ⟨out, hout, hp⟩ := MapPortal_position_some src p pos s d a sa t hpos
  refine ⟨out, _, hout, hp, ?_, ?_, ?_, ?_⟩
  · exact mapTransport_fst_eq_none_iff pos.Transport a sa t
  · intro tr h
    show ∃ otr, (mapTransport pos.Transport a sa t).1 = some otr ∧ _
    rw [h]
    exact ⟨_, mapTransport_some tr a sa t, getInternalAreaID_fst tr.Area a,
      getInternalSubAreaID_fst tr.SubArea sa, getInternalTransportTypeID_fst tr.Type_ t⟩
  · exact mapTransport_fst_eq_none_iff pos.ConditionalTransport a sa t
  · intro tr h
    show ∃ otr, (mapTransport pos.ConditionalTransport a sa t).1 = some otr ∧ _
    rw [h]
    exact ⟨_, mapTransport_some tr a sa t, getInternalAreaID_fst tr.Area a,
      getInternalSubAreaID_fst tr.SubArea sa, getInternalTransportTypeID_fst tr.Type_ t⟩

/-- The two transports of the record `twoTransportsPortal`: the first resolves
in every catalog, the second in none and keeps its external identifiers. -/
theorem MapPortal_transports_witness :
    ∃ out opos otr ctr,
      (MapPortal scenarioSource twoTransportsPortal scenarioServers scenarioDimensions
        scenarioAreas scenarioSubAreas scenarioTransports).1 = some out ∧
      out.Position = some opos ∧
      opos.Transport = some otr ∧
      otr.AreaId = "A1" ∧ otr.SubAreaId = "SA1" ∧ otr.TypeId = "TT1" ∧
      opos.ConditionalTransport = some ctr ∧
      ctr.AreaId = "a2" ∧ ctr.SubAreaId = "sa2" ∧ ctr.TypeId = "zaapi" := by
  obtain ⟨out, opos, h1, h2, _, h4, _, h6⟩ :=
    MapPortal_transports scenarioSource twoTransportsPortal twoTransportsPosition
      scenarioServers scenarioDimensions scenarioAreas scenarioSubAreas scenarioTransports rfl
  obtain ⟨otr, ho, ha, hs, ht⟩ := h4 scenarioTransport rfl
  obtain ⟨ctr, hc, ca, cs, ct⟩ := h6 unknownTransport rfl
  exact ⟨out, opos, otr, ctr, h1, h2, ho, ha.trans (by decide), hs.trans (by decide),
    ht.trans (by decide), hc, ca.trans (by decide), cs.trans (by decide),
    ct.trans (by decide)⟩

/-- C9. For a present input position the output isInCanopy is true exactly
when the input isInCanopy is present and true; and the records that differ
only in isInCanopy being absent or explicitly false have the same result of
`MapPortal`, message and events. -/
theorem MapPortal_isInCanopy (src : models.Source) (p : dofusportals.Portal)
    (pos : dofusportals.Position) (s : servers.Service) (d : dimensions.Service)
    (a : areas.Service) (sa : subareas.Service) (t : transports.Service)
    (hpos : p.Position = some pos) :
    (∃ out opos, (MapPortal src p s d a sa t).1 = some out ∧ out.Position = some opos ∧
      (opos.IsInCanopy = true ↔ pos.IsInCanopy = some true)) ∧
    MapPortal src { p with Position := some { pos with IsInCanopy := none } } s d a sa t =
      MapPortal src { p with Position := some { pos with IsInCanopy := some false } }
        s d a sa t := by
  refine ⟨?_, rfl⟩
  obtain ⟨out, hout, hp⟩ := MapPortal_position_some src p pos s d a sa t hpos
  refine ⟨out, _, hout, hp, ?_⟩
  show (match pos.IsInCanopy with
    | some true => true
    | _ => false) = true ↔ _
  rcases h : pos.IsInCanopy with _ | _ | _ <;> simp

/-- The canopy flag of the scenario record, present and true, comes out true;
the explicitly false one of `twoTransportsPortal` comes out false. -/
theorem MapPortal_isInCanopy_witness :
    (∃ out opos, (MapPortal scenarioSource scenarioPortal scenarioServers scenarioDimensions
        scenarioAreas scenarioSubAreas scenarioTransports).1 = some out ∧
      out.Position = some opos ∧ opos.IsInCanopy = true) ∧
    (∃ out opos, (MapPortal scenarioSource twoTransportsPortal scenarioServers
        scenarioDimensions scenarioAreas scenarioSubAreas scenarioTransports).1 = some out ∧
      out.Position = some opos ∧ ¬ opos.IsInCanopy = true) := by
  obtain ⟨out, opos, h1, h2, h3⟩ :=
    (MapPortal_isInCanopy scenarioSource scenarioPortal scenarioPosition scenarioServers
      scenarioDimensions scenarioAreas scenarioSubAreas scenarioTransports rfl).1
  obtain ⟨out2, opos2, k1, k2, k3⟩ :=
    (MapPortal_isInCanopy scenarioSource twoTransportsPortal twoTransportsPosition
      scenarioServers scenarioDimensions scenarioAreas scenarioSubAreas scenarioTransports
      rfl).1
  exact ⟨⟨out, opos, h1, h2, h3.mpr rfl⟩,
    ⟨out2, opos2, k1, k2, fun hc => absurd (k3.mp hc) (by decide)⟩⟩

/-- C10, as the code has it. For a present input position and for a present
transport in either slot, the output x and y equal the input x and y verbatim
whenever the input value lies in the signed 32-bit range,
-2^31 ≤ v ≤ 2^31 - 1. -/
theorem MapPortal_coordinates (src : models.Source) (p : dofusportals.Portal)
    (pos : dofusportals.Position) (s : servers.Service) (d : dimensions.Service)
    (a : areas.Service) (sa : subareas.Service) (t : transports.Service)
    (hpos : p.Position = some pos) :
    ∃ out opos, (MapPortal src p s d a sa t).1 = some out ∧ out.Position = some opos ∧
      (-2147483648 ≤ pos.X → pos.X ≤ 2147483647 → opos.X = pos.X) ∧
      (-2147483648 ≤ pos.Y → pos.Y ≤ 2147483647 → opos.Y = pos.Y) ∧
      (∀ tr : dofusportals.Transport, pos.Transport = some tr →
        ∃ otr, opos.Transport = some otr ∧
          (-2147483648 ≤ tr.X → tr.X ≤ 2147483647 → otr.X = tr.X) ∧
          (-2147483648 ≤ tr.Y → tr.Y ≤ 2147483647 → otr.Y = tr.Y)) ∧
      (∀ tr : dofusportals.Transport, pos.ConditionalTransport = some tr →
        ∃ otr, opos.ConditionalTransport = some otr ∧
          (-2147483648 ≤ tr.X → tr.X ≤ 2147483647 → otr.X = tr.X) ∧
          (-2147483648 ≤ tr.Y → tr.Y ≤ 2147483647 → otr.Y = tr.Y)) := by
  obtain ⟨out, hout, hp⟩ := MapPortal_position_some src p pos s d a sa t hpos
  refine ⟨out, _, hout, hp, int32_eq_self pos.X, int32_eq_self pos.Y, ?_, ?_⟩
  · intro tr h
    show ∃ otr, (mapTransport pos.Transport a sa t).1 = some otr ∧ _
    rw [h]
    exact ⟨_, mapTransport_some tr a sa t, int32_eq_self tr.X, int32_eq_self tr.Y⟩
  · intro tr h
    show ∃ otr, (mapTransport pos.ConditionalTransport a sa t).1 = some otr ∧ _
    rw [h]
    exact ⟨_, mapTransport_some tr a sa t, int32_eq_self tr.X, int32_eq_self tr.Y⟩

/-- The coordinates of the record `twoTransportsPortal`: (5, -3) for the
position and the first transport, (-7, 12) for the conditional transport. -/
theorem MapPortal_coordinates_witness :
    ∃ out opos otr ctr,
      (MapPortal scenarioSource twoTransportsPortal scenarioServers scenarioDimensions
        scenarioAreas scenarioSubAreas scenarioTransports).1 = some out ∧
      out.Position = some opos ∧ opos.X = 5 ∧ opos.Y = -3 ∧
      opos.Transport = some otr ∧ otr.X = 5 ∧ otr.Y = -3 ∧
      opos.ConditionalTransport = some ctr ∧ ctr.X = -7 ∧ ctr.Y = 12 := by
  obtain ⟨out, opos, h1, h2, hx, hy, h5, h6⟩ :=
    MapPortal_coordinates scenarioSource twoTransportsPortal twoTransportsPosition
      scenarioServers scenarioDimensions scenarioAreas scenarioSubAreas scenarioTransports rfl
  obtain ⟨otr, ho, ox, oy⟩ := h5 scenarioTransport rfl
  obtain ⟨ctr, hc, cx, cy⟩ := h6 unknownTransport rfl
  exact ⟨out, opos, otr, ctr, h1, h2, hx (by decide) (by decide), hy (by decide) (by decide),
    ho, ox (by decide) (by decide), oy (by decide) (by decide),
    hc, cx (by decide) (by decide), cy (by decide) (by decide)⟩

/-- C10 as stated fails: a position at x = 2147483648, y = -2147483649 comes
out at x = -2147483648, y = 2147483647. -/
theorem MapPortal_coordinates_not_verbatim :
    widePositionPortal.Position = some widePosition ∧
    widePosition.X = 2147483648 ∧ widePosition.Y = -2147483649 ∧
    ∃ out opos, (MapPortal scenarioSource widePositionPortal scenarioServers
        scenarioDimensions scenarioAreas scenarioSubAreas scenarioTransports).1 = some out ∧
      out.Position = some opos ∧
      opos.X = -2147483648 ∧ opos.X ≠ widePosition.X ∧
      opos.Y = 2147483647 ∧ opos.Y ≠ widePosition.Y :=
  ⟨rfl, rfl, rfl, _, _, MapPortal_fst _ _ _ _ _ _ _, mapPosition_some _ _ _ _,
    by decide, by decide, by decide, by decide⟩

/-! ## Timestamps and source -/

/-- The nanosecond part of an instant is its own `int32` conversion. -/
theorem timestamppb_New_eq (ts : time.Time) :
    timestamppb.New ts = { Seconds := ts.Unix, Nanos := (ts.Nanosecond.val : Int) } := by
  have h := ts.Nanosecond.isLt
  simp only [timestamppb.New]
  rw [int32_eq_self _ (by omega) (by omega)]

/-- The timestamp `mapTimestamp` returns is nil exactly for a nil instant. -/
theorem mapTimestamp_eq_none_iff (ts : Option time.Time) :
    mapTimestamp ts = none ↔ ts = none := by
  cases ts <;> simp [mapTimestamp]

/-- C11. The output createdAt of `MapPortal` is absent exactly when the input
createdAt is absent, and for a present input it is present and has the seconds
since the epoch and the nanosecond part of the input instant; likewise for
updatedAt. -/
theorem MapPortal_createdAt_updatedAt (src : models.Source) (p : dofusportals.Portal)
    (s : servers.Service) (d : dimensions.Service) (a : areas.Service)
    (sa : subareas.Service) (t : transports.Service) :
    ∃ out, (MapPortal src p s d a sa t).1 = some out ∧
      (out.CreatedAt = none ↔ p.CreatedAt = none) ∧
      (∀ ts : time.Time, p.CreatedAt = some ts →
        ∃ o, out.CreatedAt = some o ∧ o.Seconds = ts.Unix ∧
          o.Nanos = (ts.Nanosecond.val : Int)) ∧
      (out.UpdatedAt = none ↔ p.UpdatedAt = none) ∧
      (∀ ts : time.Time, p.UpdatedAt = some ts →
        ∃ o, out.UpdatedAt = some o ∧ o.Seconds = ts.Unix ∧
          o.Nanos = (ts.Nanosecond.val : Int)) := by
  refine ⟨_, MapPortal_fst src p s d a sa t, ?_, ?_, ?_, ?_⟩
  · exact mapTimestamp_eq_none_iff p.CreatedAt
  · intro ts h
    show ∃ o, mapTimestamp p.CreatedAt = some o ∧ _
    rw [h]
    exact ⟨_, rfl, by rw [timestamppb_New_eq], by rw [timestamppb_New_eq]⟩
  · exact mapTimestamp_eq_none_iff p.UpdatedAt
  · intro ts h
    show ∃ o, mapTimestamp p.UpdatedAt = some o ∧ _
    rw [h]
    exact ⟨_, rfl, by rw [timestamppb_New_eq], by rw [timestamppb_New_eq]⟩

/-- The timestamps of the scenario record: created at (1700000000 s, 42 ns),
never updated. -/
theorem MapPortal_createdAt_updatedAt_witness :
    ∃ out o, (MapPortal scenarioSource scenarioPortal scenarioServers scenarioDimensions
        scenarioAreas scenarioSubAreas scenarioTransports).1 = some out ∧
      out.CreatedAt = some o ∧ o.Seconds = 1700000000 ∧ o.Nanos = 42 ∧
      out.UpdatedAt = none := by
  obtain ⟨out, h1, _, h3, h4, _⟩ :=
    MapPortal_createdAt_updatedAt scenarioSource scenarioPortal scenarioServers
      scenarioDimensions scenarioAreas scenarioSubAreas scenarioTransports
  obtain ⟨o, ho, hs, hn⟩ := h3 ⟨1700000000, 42⟩ rfl
  exact ⟨out, o, h1, ho, hs, hn, h4.mpr rfl⟩

/-- C12. The output source of `MapPortal` is present and its name, icon and url
are those of the constant `models.SourceDofusPortals`; it is the same for any
two records and any two contents of the catalogs. -/
theorem MapPortal_source (src : models.Source) (p : dofusportals.Portal)
    (s : servers.Service) (d : dimensions.Service) (a : areas.Service)
    (sa : subareas.Service) (t : transports.Service) :
    ∃ out so, (MapPortal src p s d a sa t).1 = some out ∧ out.Source = some so ∧
      so.Name = src.Name ∧ so.Icon = src.Icon ∧ so.Url = src.Url ∧
      ∀ (p2 : dofusportals.Portal) (s2 : servers.Service) (d2 : dimensions.Service)
        (a2 : areas.Service) (sa2 : subareas.Service) (t2 : transports.Service),
        ∃ out2, (MapPortal src p2 s2 d2 a2 sa2 t2).1 = some out2 ∧
          out2.Source = out.Source :=
  ⟨_, _, MapPortal_fst src p s d a sa t, rfl, rfl, rfl, rfl,
    fun p2 s2 d2 a2 sa2 t2 => ⟨_, MapPortal_fst src p2 s2 d2 a2 sa2 t2, rfl⟩⟩

/-! ## Determinism -/

/-- The server helper gives the same result against two catalogs that agree, at
the identifier asked for, on the found flag and on the internal id of a hit. -/
theorem getInternalServerID_congr (id : String) (s s2 : servers.Service)
    (h : (s.FindServerByDofusPortalsID id).2 = (s2.FindServerByDofusPortalsID id).2 ∧
      ((s.FindServerByDofusPortalsID id).2 = true →
        (s.FindServerByDofusPortalsID id).1.ID = (s2.FindServerByDofusPortalsID id).1.ID)) :
    getInternalServerID id s = getInternalServerID id s2 := by
  obtain ⟨h1, h2⟩ := h
  unfold getInternalServerID
  by_cases hf : (s.FindServerByDofusPortalsID id).2 = true
  · simp [← h1, hf, h2 hf]
  · simp [← h1, hf]

/-- The dimension helper gives the same result against two agreeing catalogs. -/
theorem getInternalDimensionID_congr (id : String) (d d2 : dimensions.Service)
    (h : (d.FindDimensionByDofusPortalsID id).2 = (d2.FindDimensionByDofusPortalsID id).2 ∧
      ((d.FindDimensionByDofusPortalsID id).2 = true →
        (d.FindDimensionByDofusPortalsID id).1.ID =
          (d2.FindDimensionByDofusPortalsID id).1.ID)) :
    getInternalDimensionID id d = getInternalDimensionID id d2 := by
  obtain ⟨h1, h2⟩ := h
  unfold getInternalDimensionID
  by_cases hf : (d.FindDimensionByDofusPortalsID id).2 = true
  · simp [← h1, hf, h2 hf]
  · simp [← h1, hf]

/-- The area helper gives the same result against two agreeing catalogs. -/
theorem getInternalAreaID_congr (id : String) (a a2 : areas.Service)
    (h : (a.FindAreaByDofusPortalsID id).2 = (a2.FindAreaByDofusPortalsID id).2 ∧
      ((a.FindAreaByDofusPortalsID id).2 = true →
        (a.FindAreaByDofusPortalsID id).1.ID = (a2.FindAreaByDofusPortalsID id).1.ID)) :
    getInternalAreaID id a = getInternalAreaID id a2 := by
  obtain ⟨h1, h2⟩ := h
  unfold getInternalAreaID
  by_cases hf : (a.FindAreaByDofusPortalsID id).2 = true
  · simp [← h1, hf, h2 hf]
  · simp [← h1, hf]

/-- The sub-area helper gives the same result against two agreeing catalogs. -/
theorem getInternalSubAreaID_congr (id : String) (sa sa2 : subareas.Service)
    (h : (sa.FindSubAreaByDofusPortalsID id).2 = (sa2.FindSubAreaByDofusPortalsID id).2 ∧
      ((sa.FindSubAreaByDofusPortalsID id).2 = true →
        (sa.FindSubAreaByDofusPortalsID id).1.ID =
          (sa2.FindSubAreaByDofusPortalsID id).1.ID)) :
    getInternalSubAreaID id sa = getInternalSubAreaID id sa2 := by
  obtain ⟨h1, h2⟩ := h
  unfold getInternalSubAreaID
  by_cases hf : (sa.FindSubAreaByDofusPortalsID id).2 = true
  · simp [← h1, hf, h2 hf]
  · simp [← h1, hf]

/-- The transport-type helper gives the same result against two agreeing
catalogs. -/
theorem getInternalTransportTypeID_congr (id : String) (t t2 : transports.Service)
    (h : (t.FindTransportTypeByDofusPortalsID id).2 =
        (t2.FindTransportTypeByDofusPortalsID id).2 ∧
      ((t.FindTransportTypeByDofusPortalsID id).2 = true →
        (t.FindTransportTypeByDofusPortalsID id).1.ID =
          (t2.FindTransportTypeByDofusPortalsID id).1.ID)) :
    getInternalTransportTypeID id t = getInternalTransportTypeID id t2 := by
  obtain ⟨h1, h2⟩ := h
  unfold getInternalTransportTypeID
  by_cases hf : (t.FindTransportTypeByDofusPortalsID id).2 = true
  · simp [← h1, hf, h2 hf]
  · simp [← h1, hf]

/-- C13. `MapPortal` is deterministic: two calls on the same record, with
catalogs of the same contents (for every identifier the same found flag and,
on a hit, the same internal id), return the same message, every field and the
nested position and transports included, and the same sequence of warnings. -/
theorem MapPortal_deterministic (src : models.Source) (p : dofusportals.Portal)
    (s s2 : servers.Service) (d d2 : dimensions.Service) (a a2 : areas.Service)
    (sa sa2 : subareas.Service) (t t2 : transports.Service)
    (hs : ∀ id, (s.FindServerByDofusPortalsID id).2 = (s2.FindServerByDofusPortalsID id).2 ∧
      ((s.FindServerByDofusPortalsID id).2 = true →
        (s.FindServerByDofusPortalsID id).1.ID = (s2.FindServerByDofusPortalsID id).1.ID))
    (hd : ∀ id,
      (d.FindDimensionByDofusPortalsID id).2 = (d2.FindDimensionByDofusPortalsID id).2 ∧
      ((d.FindDimensionByDofusPortalsID id).2 = true →
        (d.FindDimensionByDofusPortalsID id).1.ID =
          (d2.FindDimensionByDofusPortalsID id).1.ID))
    (ha : ∀ id, (a.FindAreaByDofusPortalsID id).2 = (a2.FindAreaByDofusPortalsID id).2 ∧
      ((a.FindAreaByDofusPortalsID id).2 = true →
        (a.FindAreaByDofusPortalsID id).1.ID = (a2.FindAreaByDofusPortalsID id).1.ID))
    (hsa : ∀ id,
      (sa.FindSubAreaByDofusPortalsID id).2 = (sa2.FindSubAreaByDofusPortalsID id).2 ∧
      ((sa.FindSubAreaByDofusPortalsID id).2 = true →
        (sa.FindSubAreaByDofusPortalsID id).1.ID =
          (sa2.FindSubAreaByDofusPortalsID id).1.ID))
    (ht : ∀ id,
      (t.FindTransportTypeByDofusPortalsID id).2 =
        (t2.FindTransportTypeByDofusPortalsID id).2 ∧
      ((t.FindTransportTypeByDofusPortalsID id).2 = true →
        (t.FindTransportTypeByDofusPortalsID id).1.ID =
          (t2.FindTransportTypeByDofusPortalsID id).1.ID)) :
    MapPortal src p s d a sa t = MapPortal src p s2 d2 a2 sa2 t2 := by
  have htr : ∀ tr : Option dofusportals.Transport,
      mapTransport tr a sa t = mapTransport tr a2 sa2 t2 := by
    intro tr
    cases tr with
    | none => rfl
    | some tr =>
      simp only [mapTransport, getInternalAreaID_congr tr.Area a a2 (ha _),
        getInternalSubAreaID_congr tr.SubArea sa sa2 (hsa _),
        getInternalTransportTypeID_congr tr.Type_ t t2 (ht _)]
  have hpos : mapPosition p.Position a sa t = mapPosition p.Position a2 sa2 t2 := by
    cases p.Position with
    | none => rfl
    | some pos => simp only [mapPosition, htr]
  simp only [MapPortal, getInternalServerID_congr p.Server s s2 (hs _),
    getInternalDimensionID_congr p.Dimension d d2 (hd _), hpos]

/-- A call on the record `twoTransportsPortal` with the scenario catalogs and a
call against a server catalog of the same contents, which answers a miss with
another zero entity, return the same result. -/
theorem MapPortal_deterministic_witness :
    MapPortal scenarioSource twoTransportsPortal scenarioServers scenarioDimensions
        scenarioAreas scenarioSubAreas scenarioTransports =
      MapPortal scenarioSource twoTransportsPortal
        ⟨fun id => if id = "s1" then (⟨"S1", "other"⟩, true) else (⟨"none", ""⟩, false)⟩
        scenarioDimensions scenarioAreas scenarioSubAreas scenarioTransports :=
  MapPortal_deterministic scenarioSource twoTransportsPortal scenarioServers _
    scenarioDimensions scenarioDimensions scenarioAreas scenarioAreas
    scenarioSubAreas scenarioSubAreas scenarioTransports scenarioTransports
    (fun id => by by_cases h : id = "s1" <;> simp [scenarioServers, h])
    (fun _ => ⟨rfl, fun _ => rfl⟩) (fun _ => ⟨rfl, fun _ => rfl⟩)
    (fun _ => ⟨rfl, fun _ => rfl⟩) (fun _ => ⟨rfl, fun _ => rfl⟩)

/-! ## Warnings and lookups -/

/-- The warnings `mapTransport` submits are the misses among its lookups. -/
theorem mapTransport_warnings (tr : Option dofusportals.Transport) (a : areas.Service)
    (sa : subareas.Service) (t : transports.Service) :
    (mapTransport tr a sa t).2.map (fun e => (e.level, e.key, e.value)) =
      ((lookupsTransport tr a sa t).filter (fun l => !l.found)).map
        (fun l => (LogLevel.Warn, l.kind.logKey, l.id)) := by
  cases tr with
  | none => rfl
  | some tr =>
    simp only [mapTransport, lookupsTransport, getInternalAreaID, getInternalSubAreaID,
      getInternalTransportTypeID]
    cases (a.FindAreaByDofusPortalsID tr.Area).2 <;>
    cases (sa.FindSubAreaByDofusPortalsID tr.SubArea).2 <;>
    cases (t.FindTransportTypeByDofusPortalsID tr.Type_).2 <;>
    simp [CatalogKind.logKey]

/-- The warnings `mapPosition` submits are the misses among its lookups. -/
theorem mapPosition_warnings (pos : Option dofusportals.Position) (a : areas.Service)
    (sa : subareas.Service) (t : transports.Service) :
    (mapPosition pos a sa t).2.map (fun e => (e.level, e.key, e.value)) =
      ((lookupsPosition pos a sa t).filter (fun l => !l.found)).map
        (fun l => (LogLevel.Warn, l.kind.logKey, l.id)) := by
  cases pos with
  | none => rfl
  | some pos =>
    simp only [mapPosition, lookupsPosition, List.map_append, List.filter_append,
      mapTransport_warnings]

/-- The warnings `MapPortal` submits are the misses among its lookups. -/
theorem warnings_eq_missed_lookups (src : models.Source) (p : dofusportals.Portal)
    (s : servers.Service) (d : dimensions.Service) (a : areas.Service)
    (sa : subareas.Service) (t : transports.Service) :
    (MapPortal src p s d a sa t).2.map (fun e => (e.level, e.key, e.value)) =
      ((lookupsPortal p s d a sa t).filter (fun l => !l.found)).map
        (fun l => (LogLevel.Warn, l.kind.logKey, l.id)) := by
  simp only [MapPortal, lookupsPortal, List.map_append, List.filter_append,
    mapPosition_warnings, getInternalServerID, getInternalDimensionID]
  cases (s.FindServerByDofusPortalsID p.Server).2 <;>
  cases (d.FindDimensionByDofusPortalsID p.Dimension).2 <;>
  simp [CatalogKind.logKey]

/-- C14. The warnings of one call of `MapPortal` are, in order, one warning per
catalog lookup of the call that misses, carrying the key of the catalog kind
and the unmatched external identifier; so their number is the number of missed
lookups, and a call whose lookups all hit submits no warning. -/
theorem MapPortal_warnings_are_misses (src : models.Source) (p : dofusportals.Portal)
    (s : servers.Service) (d : dimensions.Service) (a : areas.Service)
    (sa : subareas.Service) (t : transports.Service) :
    (MapPortal src p s d a sa t).2.map (fun e => (e.level, e.key, e.value)) =
      ((lookupsPortal p s d a sa t).filter (fun l => !l.found)).map
        (fun l => (LogLevel.Warn, l.kind.logKey, l.id)) ∧
    (MapPortal src p s d a sa t).2.length =
      ((lookupsPortal p s d a sa t).filter (fun l => !l.found)).length ∧
    ((∀ l ∈ lookupsPortal p s d a sa t, l.found = true) →
      (MapPortal src p s d a sa t).2 = []) := by
  have h := warnings_eq_missed_lookups src p s d a sa t
  have hlen := congrArg List.length h
  simp only [List.length_map] at hlen
  refine ⟨h, hlen, ?_⟩
  intro hall
  have hnil : (lookupsPortal p s d a sa t).filter (fun l => !l.found) = [] := by
    rw [List.filter_eq_nil_iff]
    intro l hl
    simp [hall l hl]
  rw [hnil] at hlen
  exact List.length_eq_zero.mp hlen

/-- The record `twoTransportsPortal` against the scenario catalogs: eight
lookups, of which the three of the conditional transport miss, and three
warnings; the scenario record, whose five lookups hit, has none. -/
theorem MapPortal_warnings_are_misses_witness :
    (lookupsPortal twoTransportsPortal scenarioServers scenarioDimensions
        scenarioAreas scenarioSubAreas scenarioTransports).length = 8 ∧
    (MapPortal scenarioSource twoTransportsPortal scenarioServers scenarioDimensions
        scenarioAreas scenarioSubAreas scenarioTransports).2.map
        (fun e => (e.level, e.key, e.value)) =
      [(LogLevel.Warn, LogKey.LogAreaID, "a2"), (LogLevel.Warn, LogKey.LogSubAreaID, "sa2"),
       (LogLevel.Warn, LogKey.LogTransportTypeID, "zaapi")] ∧
    (MapPortal scenarioSource scenarioPortal scenarioServers scenarioDimensions
        scenarioAreas scenarioSubAreas scenarioTransports).2 = [] :=
  ⟨by decide,
   (MapPortal_warnings_are_misses scenarioSource twoTransportsPortal scenarioServers
      scenarioDimensions scenarioAreas scenarioSubAreas scenarioTransports).1.trans
      (by decide),
   (MapPortal_warnings_are_misses scenarioSource scenarioPortal scenarioServers
      scenarioDimensions scenarioAreas scenarioSubAreas scenarioTransports).2.2
      (by decide)⟩

/-! ## The scenarios of the design -/

/-- C15. The scenario record (server s1, dimension d1, position (5, -3) in the
canopy with the transport a1, sa1, zaap at (5, -3) and no conditional
transport, 3 remaining uses, created by Bob at T1, never updated), against
catalogs in which s1, d1, a1, sa1 and zaap are found with the internal ids S1,
D1, A1, SA1 and TT1, yields the message of the scenario, with the source built
from the constant, and no warning. -/
theorem MapPortal_scenario_all_found (src : models.Source) (T1 : time.Time)
    (s : servers.Service) (d : dimensions.Service) (a : areas.Service)
    (sa : subareas.Service) (t : transports.Service)
    (hs : (s.FindServerByDofusPortalsID "s1").2 = true ∧
      (s.FindServerByDofusPortalsID "s1").1.ID = "S1")
    (hd : (d.FindDimensionByDofusPortalsID "d1").2 = true ∧
      (d.FindDimensionByDofusPortalsID "d1").1.ID = "D1")
    (ha : (a.FindAreaByDofusPortalsID "a1").2 = true ∧
      (a.FindAreaByDofusPortalsID "a1").1.ID = "A1")
    (hsa : (sa.FindSubAreaByDofusPortalsID "sa1").2 = true ∧
      (sa.FindSubAreaByDofusPortalsID "sa1").1.ID = "SA1")
    (ht : (t.FindTransportTypeByDofusPortalsID "zaap").2 = true ∧
      (t.FindTransportTypeByDofusPortalsID "zaap").1.ID = "TT1") :
    MapPortal src (scenarioPortalAt T1) s d a sa t = (some (scenarioMessage src T1), []) := by
  have h5 : int32 5 = 5 := by decide
  have h3 : int32 3 = 3 := by decide
  have hm3 : int32 (-3) = -3 := by decide
  simp [MapPortal, scenarioPortalAt, scenarioPortal, scenarioPosition, scenarioTransport,
    mapPosition, mapTransport, getInternalServerID, getInternalDimensionID,
    getInternalAreaID, getInternalSubAreaID, getInternalTransportTypeID, mapUser,
    mapTimestamp, mapSource, timestamppb_New_eq, scenarioMessage, hs.1, hs.2, hd.1, hd.2,
    ha.1, ha.2, hsa.1, hsa.2, ht.1, ht.2, h5, h3, hm3]

/-- The first scenario at the instant (1700000000 s, 42 ns), against the
scenario catalogs. -/
theorem MapPortal_scenario_all_found_witness :
    MapPortal scenarioSource scenarioPortal scenarioServers scenarioDimensions
        scenarioAreas scenarioSubAreas scenarioTransports =
      (some (scenarioMessage scenarioSource ⟨1700000000, 42⟩), []) :=
  MapPortal_scenario_all_found scenarioSource ⟨1700000000, 42⟩ scenarioServers
    scenarioDimensions scenarioAreas scenarioSubAreas scenarioTransports
    (by decide) (by decide) (by decide) (by decide) (by decide)

/-- C16. The scenario record against the same dimension, area, sub-area and
transport-type catalogs and a server catalog without entry for s1 yields
serverId s1, every other field as in the first scenario, and exactly one
warning, the one of the server catalog for the identifier s1. -/
theorem MapPortal_scenario_server_missing (src : models.Source) (T1 : time.Time)
    (s : servers.Service) (d : dimensions.Service) (a : areas.Service)
    (sa : subareas.Service) (t : transports.Service)
    (hs : (s.FindServerByDofusPortalsID "s1").2 = false)
    (hd : (d.FindDimensionByDofusPortalsID "d1").2 = true ∧
      (d.FindDimensionByDofusPortalsID "d1").1.ID = "D1")
    (ha : (a.FindAreaByDofusPortalsID "a1").2 = true ∧
      (a.FindAreaByDofusPortalsID "a1").1.ID = "A1")
    (hsa : (sa.FindSubAreaByDofusPortalsID "sa1").2 = true ∧
      (sa.FindSubAreaByDofusPortalsID "sa1").1.ID = "SA1")
    (ht : (t.FindTransportTypeByDofusPortalsID "zaap").2 = true ∧
      (t.FindTransportTypeByDofusPortalsID "zaap").1.ID = "TT1") :
    MapPortal src (scenarioPortalAt T1) s d a sa t =
      (some { scenarioMessage src T1 with ServerId := "s1" },
       [⟨LogLevel.Warn, LogKey.LogServerID, "s1",
         "Server not found with following dofusPortalsID, using it as internal one"⟩]) := by
  have h5 : int32 5 = 5 := by decide
  have h3 : int32 3 = 3 := by decide
  have hm3 : int32 (-3) = -3 := by decide
  simp [MapPortal, scenarioPortalAt, scenarioPortal, scenarioPosition, scenarioTransport,
    mapPosition, mapTransport, getInternalServerID, getInternalDimensionID,
    getInternalAreaID, getInternalSubAreaID, getInternalTransportTypeID, mapUser,
    mapTimestamp, mapSource, timestamppb_New_eq, scenarioMessage, hs, hd.1, hd.2,
    ha.1, ha.2, hsa.1, hsa.2, ht.1, ht.2, h5, h3, hm3]

/-- The second scenario at the instant (1700000000 s, 42 ns), against the
server catalog without entries and the other scenario catalogs. -/
theorem MapPortal_scenario_server_missing_witness :
    MapPortal scenarioSource scenarioPortal emptyServers scenarioDimensions
        scenarioAreas scenarioSubAreas scenarioTransports =
      (some { scenarioMessage scenarioSource ⟨1700000000, 42⟩ with ServerId := "s1" },
       [⟨LogLevel.Warn, LogKey.LogServerID, "s1",
         "Server not found with following dofusPortalsID, using it as internal one"⟩]) :=
  MapPortal_scenario_server_missing scenarioSource ⟨1700000000, 42⟩ emptyServers
    scenarioDimensions scenarioAreas scenarioSubAreas scenarioTransports
    rfl (by decide) (by decide) (by decide) (by decide)

/-! ## Narrowing of the use count -/

/-- C17. For a record whose remainingUses is present with value v, the output
remainingUses is v narrowed to a signed 32-bit integer: it lies in
[-2^31, 2^31), it is congruent to v modulo 2^32, and it is the only such
integer; so it equals v when -2^31 ≤ v ≤ 2^31 - 1 and differs from v for every
v outside that range. -/
theorem narrowed_remainingUses (src : models.Source) (p : dofusportals.Portal)
    (v : Int) (s : servers.Service) (d : dimensions.Service) (a : areas.Service)
    (sa : subareas.Service) (t : transports.Service) (hv : p.RemainingUses = some v) :
    ∃ out, (MapPortal src p s d a sa t).1 = some out ∧
      -2147483648 ≤ out.RemainingUses ∧ out.RemainingUses < 2147483648 ∧
      (out.RemainingUses - v) % 4294967296 = 0 ∧
      (∀ w : Int, -2147483648 ≤ w → w < 2147483648 → (w - v) % 4294967296 = 0 →
        w = out.RemainingUses) ∧
      (-2147483648 ≤ v → v ≤ 2147483647 → out.RemainingUses = v) ∧
      (¬ (-2147483648 ≤ v ∧ v ≤ 2147483647) → out.RemainingUses ≠ v) := by
  refine ⟨_, MapPortal_fst src p s d a sa t, ?_⟩
  show -2147483648 ≤ (match p.RemainingUses with
      | none => 0
      | some v => int32 v) ∧ _
  rw [hv]
  simp only [int32]
  refine ⟨by omega, by omega, by omega, ?_, by omega, by omega⟩
  intro w h1 h2 h3
  omega

/-- The use count 2147483648 narrows to a value of the 32-bit range other than
itself, and the use count 3 of the scenario record stays 3. -/
theorem narrowed_remainingUses_witness :
    (∃ out, (MapPortal scenarioSource wideUsesPortal scenarioServers scenarioDimensions
        scenarioAreas scenarioSubAreas scenarioTransports).1 = some out ∧
      -2147483648 ≤ out.RemainingUses ∧ out.RemainingUses < 2147483648 ∧
      out.RemainingUses ≠ 2147483648) ∧
    (∃ out, (MapPortal scenarioSource scenarioPortal scenarioServers scenarioDimensions
        scenarioAreas scenarioSubAreas scenarioTransports).1 = some out ∧
      out.RemainingUses = 3) := by
  obtain ⟨out, h1, h2, h3, _, _, _, h7⟩ :=
    narrowed_remainingUses scenarioSource wideUsesPortal 2147483648
      scenarioServers scenarioDimensions scenarioAreas scenarioSubAreas scenarioTransports rfl
  obtain ⟨out2, k1, _, _, _, _, k6, _⟩ :=
    narrowed_remainingUses scenarioSource scenarioPortal 3
      scenarioServers scenarioDimensions scenarioAreas scenarioSubAreas scenarioTransports rfl
  exact ⟨⟨out, h1, h2, h3, h7 (by decide)⟩, ⟨out2, k1, k6 (by decide) (by decide)⟩⟩

/-! ## Absent position, empty catalogs, empty names -/

/-- C18. For a record without position `MapPortal` asks the server and the
dimension catalog only: its lookups are those two, its result (message and
warnings) is the same for any two choices of the area, sub-area and
transport-type catalogs, and it submits at most two warnings. -/
theorem MapPortal_absent_position (src : models.Source) (p : dofusportals.Portal)
    (s : servers.Service) (d : dimensions.Service) (a a2 : areas.Service)
    (sa sa2 : subareas.Service) (t t2 : transports.Service) (hpos : p.Position = none) :
    lookupsPortal p s d a sa t =
      [⟨CatalogKind.Server, p.Server, (s.FindServerByDofusPortalsID p.Server).2⟩,
       ⟨CatalogKind.Dimension, p.Dimension,
         (d.FindDimensionByDofusPortalsID p.Dimension).2⟩] ∧
    MapPortal src p s d a sa t = MapPortal src p s d a2 sa2 t2 ∧
    (MapPortal src p s d a sa t).2.length ≤ 2 := by
  refine ⟨?_, ?_, ?_⟩
  · simp [lookupsPortal, lookupsPosition, hpos]
  · simp only [MapPortal, hpos, mapPosition]
  · simp only [MapPortal, hpos, mapPosition, getInternalServerID, getInternalDimensionID]
    cases (s.FindServerByDofusPortalsID p.Server).2 <;>
    cases (d.FindDimensionByDofusPortalsID p.Dimension).2 <;>
    simp

/-- The record without position gives the same result against the scenario
catalogs and against empty area, sub-area and transport-type catalogs, and
against empty server and dimension catalogs it submits two warnings. -/
theorem MapPortal_absent_position_witness :
    MapPortal scenarioSource barePortal scenarioServers scenarioDimensions
        scenarioAreas scenarioSubAreas scenarioTransports =
      MapPortal scenarioSource barePortal scenarioServers scenarioDimensions
        emptyAreas emptySubAreas emptyTransports ∧
    (MapPortal scenarioSource barePortal emptyServers emptyDimensions
        scenarioAreas scenarioSubAreas scenarioTransports).2.length ≤ 2 :=
  ⟨(MapPortal_absent_position scenarioSource barePortal scenarioServers scenarioDimensions
      scenarioAreas emptyAreas scenarioSubAreas emptySubAreas scenarioTransports
      emptyTransports rfl).2.1,
   (MapPortal_absent_position scenarioSource barePortal emptyServers emptyDimensions
      scenarioAreas emptyAreas scenarioSubAreas emptySubAreas scenarioTransports
      emptyTransports rfl).2.2⟩

/-- The result of `mapTransport` for a present transport when the area, the
sub-area and the transport-type lookups all miss. -/
theorem mapTransport_all_miss (tr : dofusportals.Transport) (a : areas.Service)
    (sa : subareas.Service) (t : transports.Service)
    (ha : ∀ id, (a.FindAreaByDofusPortalsID id).2 = false)
    (hsa : ∀ id, (sa.FindSubAreaByDofusPortalsID id).2 = false)
    (ht : ∀ id, (t.FindTransportTypeByDofusPortalsID id).2 = false) :
    (∃ otr, (mapTransport (some tr) a sa t).1 = some otr ∧ otr.AreaId = tr.Area ∧
      otr.SubAreaId = tr.SubArea ∧ otr.TypeId = tr.Type_) ∧
    (mapTransport (some tr) a sa t).2.length = 3 := by
  refine ⟨⟨_, mapTransport_some tr a sa t, ?_, ?_, ?_⟩, ?_⟩
  · simp [getInternalAreaID, ha]
  · simp [getInternalSubAreaID, hsa]
  · simp [getInternalTransportTypeID, ht]
  · simp [mapTransport, getInternalAreaID, getInternalSubAreaID,
      getInternalTransportTypeID, ha, hsa, ht]

/-- C19. When every lookup in the five catalogs misses, `MapPortal` returns a
message in which serverId, dimensionId and, for each present transport of a
present position, areaId, subAreaId and typeId are the external identifiers of
the record, and it submits exactly 2 + 3k warnings, k being the number of
present transports of the record. -/
theorem MapPortal_all_miss (src : models.Source) (p : dofusportals.Portal)
    (s : servers.Service) (d : dimensions.Service) (a : areas.Service)
    (sa : subareas.Service) (t : transports.Service)
    (hs : ∀ id, (s.FindServerByDofusPortalsID id).2 = false)
    (hd : ∀ id, (d.FindDimensionByDofusPortalsID id).2 = false)
    (ha : ∀ id, (a.FindAreaByDofusPortalsID id).2 = false)
    (hsa : ∀ id, (sa.FindSubAreaByDofusPortalsID id).2 = false)
    (ht : ∀ id, (t.FindTransportTypeByDofusPortalsID id).2 = false) :
    (∃ out, (MapPortal src p s d a sa t).1 = some out ∧
      out.ServerId = p.Server ∧ out.DimensionId = p.Dimension ∧
      ∀ pos : dofusportals.Position, p.Position = some pos →
        ∃ opos, out.Position = some opos ∧
          (∀ tr : dofusportals.Transport, pos.Transport = some tr →
            ∃ otr, opos.Transport = some otr ∧ otr.AreaId = tr.Area ∧
              otr.SubAreaId = tr.SubArea ∧ otr.TypeId = tr.Type_) ∧
          (∀ tr : dofusportals.Transport, pos.ConditionalTransport = some tr →
            ∃ otr, opos.ConditionalTransport = some otr ∧ otr.AreaId = tr.Area ∧
              otr.SubAreaId = tr.SubArea ∧ otr.TypeId = tr.Type_)) ∧
    (MapPortal src p s d a sa t).2.length = 2 + 3 * presentTransports p := by
  refine ⟨⟨_, MapPortal_fst src p s d a sa t, ?_, ?_, ?_⟩, ?_⟩
  · simp [getInternalServerID, hs]
  · simp [getInternalDimensionID, hd]
  · intro pos hpos
    have hp : (mapPosition p.Position a sa t).1 = _ :=
      (congrArg (fun q => (mapPosition q a sa t).1) hpos).trans (mapPosition_some pos a sa t)
    refine ⟨_, hp, ?_, ?_⟩
    · intro tr h
      show ∃ otr, (mapTransport pos.Transport a sa t).1 = some otr ∧ _
      rw [h]
      exact (mapTransport_all_miss tr a sa t ha hsa ht).1
    · intro tr h
      show ∃ otr, (mapTransport pos.ConditionalTransport a sa t).1 = some otr ∧ _
      rw [h]
      exact (mapTransport_all_miss tr a sa t ha hsa ht).1
  · have hlen : ∀ tr : Option dofusportals.Transport,
        (mapTransport tr a sa t).2.length = 3 * (if tr.isSome then 1 else 0) := by
      intro tr
      cases tr with
      | none => rfl
      | some tr => simpa using (mapTransport_all_miss tr a sa t ha hsa ht).2
    simp only [MapPortal, getInternalServerID, getInternalDimensionID, hs, hd,
      presentTransports]
    cases p.Position with
    | none => simp [mapPosition]
    | some pos =>
      simp only [mapPosition, List.length_append, hlen]
      cases pos.Transport <;> cases pos.ConditionalTransport <;> simp

/-- Against empty catalogs the record `twoTransportsPortal`, with two present
transports, keeps its server and dimension ids and submits 8 warnings; the
record without position submits 2. -/
theorem MapPortal_all_miss_witness :
    (∃ out, (MapPortal scenarioSource twoTransportsPortal emptyServers emptyDimensions
        emptyAreas emptySubAreas emptyTransports).1 = some out ∧
      out.ServerId = "s1" ∧ out.DimensionId = "d1") ∧
    (MapPortal scenarioSource twoTransportsPortal emptyServers emptyDimensions
        emptyAreas emptySubAreas emptyTransports).2.length = 8 ∧
    (MapPortal scenarioSource barePortal emptyServers emptyDimensions
        emptyAreas emptySubAreas emptyTransports).2.length = 2 := by
  have h := MapPortal_all_miss scenarioSource twoTransportsPortal emptyServers
    emptyDimensions emptyAreas emptySubAreas emptyTransports
    (fun _ => rfl) (fun _ => rfl) (fun _ => rfl) (fun _ => rfl) (fun _ => rfl)
  have k := MapPortal_all_miss scenarioSource barePortal emptyServers
    emptyDimensions emptyAreas emptySubAreas emptyTransports
    (fun _ => rfl) (fun _ => rfl) (fun _ => rfl) (fun _ => rfl) (fun _ => rfl)
  obtain ⟨⟨out, h1, h2, h3, _⟩, h5⟩ := h
  exact ⟨⟨out, h1, h2, h3⟩, h5.trans (by decide), k.2.trans (by decide)⟩

/-- C20. `MapPortal` does not tell an absent user from a present user with an
empty name: a record with createdBy (updatedBy) absent and the same record
with a createdBy (updatedBy) user of empty name have the same result, and the
output createdBy (updatedBy) is the empty string exactly when the user is
absent or its name is empty. -/
theorem MapPortal_user_empty_name (src : models.Source) (p : dofusportals.Portal)
    (s : servers.Service) (d : dimensions.Service) (a : areas.Service)
    (sa : subareas.Service) (t : transports.Service) :
    MapPortal src { p with CreatedBy := none } s d a sa t =
      MapPortal src { p with CreatedBy := some ⟨""⟩ } s d a sa t ∧
    MapPortal src { p with UpdatedBy := none } s d a sa t =
      MapPortal src { p with UpdatedBy := some ⟨""⟩ } s d a sa t ∧
    ∃ out, (MapPortal src p s d a sa t).1 = some out ∧
      (out.CreatedBy = "" ↔
        p.CreatedBy = none ∨ ∃ u : dofusportals.User, p.CreatedBy = some u ∧ u.Name = "") ∧
      (out.UpdatedBy = "" ↔
        p.UpdatedBy = none ∨ ∃ u : dofusportals.User, p.UpdatedBy = some u ∧ u.Name = "") := by
  refine ⟨rfl, rfl, _, MapPortal_fst src p s d a sa t, ?_, ?_⟩
  · show mapUser p.CreatedBy = "" ↔ _
    cases p.CreatedBy <;> simp [mapUser]
  · show mapUser p.UpdatedBy = "" ↔ _
    cases p.UpdatedBy <;> simp [mapUser]

end KaellyPortals
